import Mathlib

/-!
# Verification of the extraterm terminal-emulator engine

A shallow embedding of the `Terminal` class of
`src/packages/extraterm-char-render-canvas/src/BoxDrawingCharacters.ts`
(the vt100/xterm engine forked from term.js), together with proofs and
refutations of the frozen claims C1..C10.

Modelling conventions:
* JS numbers that the engine only ever uses as (possibly negative) integers
  are `Int`; packed attribute words and parser parameters are `Nat`.
* JS arrays are `List`s; reads/writes at negative indices are property
  accesses in JS (invisible to the array), modelled by `jsGet`/`jsSet`
  returning `none` / leaving the list unchanged.  Writes beyond the end
  extend the array (sparse holes are filled with the written-row filler;
  the engine only ever extends sequentially, so holes never actually arise).
* DOM manipulation, event-emitter subscriptions, blink/refresh-range
  bookkeeping (`refreshStart`/`refreshEnd`, `oldy`, `cursorState`) and
  timers are pure rendering/scheduling and are outside the state model;
  `send()` output is modelled by the accumulated `sendQ` string
  (the source's `queue` field, flushed asynchronously to the `data` event).
* A thrown TypeError (reachable in `deleteChars` when the addressed row
  does not exist) aborts the rest of the current chunk; it is modelled by
  the `crashed` flag, which stops the per-chunk loop.
-/

set_option maxRecDepth 10000

namespace TermEm

/-- JS `arr[i]` read: negative or out-of-range indices give `undefined`. -/
def jsGet {α : Type} (l : List α) (i : Int) : Option α :=
  if i < 0 then none else l.get? i.toNat

/-- JS `arr[i] = v`: negative indices are property writes (array unchanged);
indices beyond the end extend the array, filling the gap with `filler`. -/
def jsSet {α : Type} (l : List α) (i : Int) (v : α) (filler : α) : List α :=
  if i < 0 then l
  else
    let n := i.toNat
    if n < l.length then l.set n v
    else l ++ List.replicate (n - l.length) filler ++ [v]

/-- Clamp a JS `splice`/`slice` start argument to an actual position. -/
def jsStart {α : Type} (l : List α) (start : Int) : Nat :=
  if start < 0 then (max ((l.length : Int) + start) 0).toNat
  else (min start (l.length : Int)).toNat

/-- JS `arr.splice(start, count)` (pure removal). -/
def jsSpliceDel {α : Type} (l : List α) (start : Int) (count : Nat) : List α :=
  let s := jsStart l start
  l.take s ++ l.drop (s + count)

/-- JS `arr.splice(start, 0, v)` (pure insertion). -/
def jsSpliceIns {α : Type} (l : List α) (start : Int) (v : α) : List α :=
  let s := jsStart l start
  l.take s ++ v :: l.drop s

/-- JS `arr.slice(start)`. -/
def jsSliceFrom {α : Type} (l : List α) (start : Int) : List α :=
  l.drop (jsStart l start)

/-- UTF-16-unit code of a character (the engine works per code unit; we
identify code units with BMP scalars). -/
def charCode (c : Char) : Nat := c.toNat

/-- `isWide` from the source: full-width detection over the U+FFxx block. -/
def isWide (c : Char) : Bool :=
  let n := charCode c
  if n ≤ 0xff00 then false
  else (0xff01 ≤ n && n ≤ 0xffbe) ||
       (0xffc2 ≤ n && n ≤ 0xffc7) ||
       (0xffca ≤ n && n ≤ 0xffcf) ||
       (0xffd2 ≤ n && n ≤ 0xffd7) ||
       (0xffda ≤ n && n ≤ 0xffdc) ||
       (0xffe0 ≤ n && n ≤ 0xffe6) ||
       (0xffe8 ≤ n && n ≤ 0xffee)

/-- The DEC Special Character and Line Drawing Set (`Terminal.charsets.SCLD`);
all other named charsets in the source are `null`. -/
def scldMap (c : Char) : Option Char :=
  match c with
  | '\x60' => some '◆'
  | 'a' => some '▒'
  | 'b' => some '\x09'
  | 'c' => some '\x0c'
  | 'd' => some '\x0d'
  | 'e' => some '\x0a'
  | 'f' => some '°'
  | 'g' => some '±'
  | 'h' => some '␤'
  | 'i' => some '\x0b'
  | 'j' => some '┘'
  | 'k' => some '┐'
  | 'l' => some '┌'
  | 'm' => some '└'
  | 'n' => some '┼'
  | 'o' => some '⎺'
  | 'p' => some '⎻'
  | 'q' => some '─'
  | 'r' => some '⎼'
  | 's' => some '⎽'
  | 't' => some '├'
  | 'u' => some '┤'
  | 'v' => some '┴'
  | 'w' => some '┬'
  | 'x' => some '│'
  | 'y' => some '≤'
  | 'z' => some '≥'
  | '\x7b' => some 'π'
  | '\x7c' => some '≠'
  | '\x7d' => some '£'
  | '~' => some '·'
  | _ => none

/-- The 16 tango seed colors of `Terminal.colors`, as RGB triples
(hex constants `#2e3436` … `#eeeeec` parsed, as `Terminal.vcolors` does). -/
def tangoRGB : List (Nat × Nat × Nat) :=
  [(0x2e, 0x34, 0x36), (0xcc, 0x00, 0x00), (0x4e, 0x9a, 0x06), (0xc4, 0xa0, 0x00),
   (0x34, 0x65, 0xa4), (0x75, 0x50, 0x7b), (0x06, 0x98, 0x9a), (0xd3, 0xd7, 0xcf),
   (0x55, 0x57, 0x53), (0xef, 0x29, 0x29), (0x8a, 0xe2, 0x34), (0xfc, 0xe9, 0x4f),
   (0x72, 0x9f, 0xcf), (0xad, 0x7f, 0xa8), (0x34, 0xe2, 0xe2), (0xee, 0xee, 0xec)]

/-- The 6-level color-cube channel values. -/
def cubeLevels : List Nat := [0x00, 0x5f, 0x87, 0xaf, 0xd7, 0xff]

/-- `Terminal.vcolors`: the default 256-color palette as RGB triples
(16 tango colors, the 6x6x6 cube, 24 greys). -/
def vcolors : List (Nat × Nat × Nat) :=
  tangoRGB ++
  ((List.range 216).map (fun i =>
    (cubeLevels.getD ((i / 36) % 6) 0,
     cubeLevels.getD ((i / 6) % 6) 0,
     cubeLevels.getD (i % 6) 0))) ++
  ((List.range 24).map (fun i => (8 + i * 10, 8 + i * 10, 8 + i * 10)))

/-- `matchColorDistance`: weighted squared RGB distance. -/
def matchColorDistance (r1 g1 b1 r2 g2 b2 : Int) : Int :=
  (30 * (r1 - r2)) ^ 2 + (59 * (g1 - g2)) ^ 2 + (11 * (b1 - b2)) ^ 2

/-- Scanning loop of `matchColor`: first index attaining the minimal
distance (short-circuiting on an exact match, as the source's `break` does). -/
def matchColorLoop (r g b : Int) : List (Nat × Nat × Nat) → Nat → Int → Int → Int
  | [], _, _, li => li
  | (r2, g2, b2) :: rest, i, ldiff, li =>
    let diff := matchColorDistance r g b (r2 : Int) (g2 : Int) (b2 : Int)
    if diff = 0 then (i : Int)
    else if diff < ldiff then matchColorLoop r g b rest (i + 1) diff (i : Int)
    else matchColorLoop r g b rest (i + 1) ldiff li

/-- `matchColor` (the global cache only memoises this pure function). -/
def matchColor (r g b : Int) : Int :=
  -- `ldiff` starts at Infinity; any concrete distance is below this bound.
  matchColorLoop r g b vcolors 0 (10 ^ 12) (-1)

/-- Parser state constants `STATE_*`. -/
inductive PState where
  | normal | escape | csi | osc | charsetSt | dcs | ignoreSt | appStart | appEnd | decHash
  deriving DecidableEq, Repr

/-- A charset table reference; only SCLD is a real table, every other
named charset in the source is `null`. -/
inductive CSTable where
  | scld
  deriving DecidableEq, Repr

/-- A parser parameter: the shared `params`/`currentParam` fields hold JS
numbers (CSI, OSC `Ps`) or strings (OSC `Pt`, DCS, application mode). -/
inductive JsParam where
  | num (n : Nat)
  | str (s : String)
  deriving DecidableEq, Repr

/-- A screen cell `LineCell = [attr, char]`. -/
abbrev Cell := Nat × Char

/-- The `SavedState` snapshot captured when entering the alternate screen. -/
structure SavedState where
  lines : List (List Cell)
  cols : Int
  rows : Int
  ybase : Int
  ydisp : Int
  x : Int
  y : Int
  scrollTop : Int
  scrollBottom : Int
  tabs : List Int
  deriving DecidableEq, Repr

/-- The engine state: every `Terminal` field read or written on the
byte-processing path (DOM, event-subscriber, blink and refresh-range
bookkeeping excluded, see the header). -/
structure Term where
  cols : Int
  rows : Int
  ybase : Int
  ydisp : Int
  x : Int
  y : Int
  savedX : Int
  savedY : Int
  sendQ : String            -- the source's `queue` field fed by send()
  scrollTop : Int
  scrollBottom : Int
  applicationKeypad : Bool
  applicationCursor : Bool
  originMode : Bool
  insertMode : Bool
  wraparoundMode : Bool
  normal : Option SavedState
  entry : String
  entryPfx : String         -- `entryPrefix`
  charset : Option CSTable
  gcharset : Option Nat
  glevel : Nat
  charsets : List (Option CSTable)
  readable : Bool
  writable : Bool
  defAttr : Nat
  curAttr : Nat
  params : List JsParam
  currentParam : JsParam
  pfx : String              -- `prefix`
  postfx : String           -- `postfix`
  lines : List (List Cell)
  tabs : List Int
  state : PState
  cursorHidden : Bool
  sendFocus : Bool
  x10Mouse : Bool
  vt200Mouse : Bool
  normalMouse : Bool
  mouseEvents : Bool
  utfMouse : Bool
  sgrMouse : Bool
  urxvtMouse : Bool
  savedCols : Option Int
  title : String
  -- construction-time options
  convertEol : Bool
  termName : String
  scrollback : Int
  physicalScroll : Bool
  applicationModeCookie : Option String
  -- models the exception unwinding that aborts the current chunk
  crashed : Bool
  deriving DecidableEq, Repr

end TermEm

namespace TermEm

/-- `send()`: append to the `queue` field (flushed asynchronously to the
`data` event). -/
def send (st : Term) (s : String) : Term := { st with sendQ := st.sendQ ++ s }

/-- `eraseAttr()`: default attribute with the current background
(`(defAttr & ~0x1ff) | (curAttr & 0x1ff)`). -/
def eraseAttr (st : Term) : Nat :=
  ((st.defAttr >>> 9) <<< 9) ||| (st.curAttr &&& 0x1ff)

/-- `blankLine(cur?)`: a row of `cols` blank cells. -/
def blankLine (st : Term) (cur : Bool) : List Cell :=
  let attr := if cur then eraseAttr st else st.defAttr
  List.replicate st.cols.toNat (attr, ' ')

/-- `tabs[i] = true` on a JS object used as a set. -/
def tabAdd (tabs : List Int) (i : Int) : List Int :=
  if tabs.contains i then tabs else tabs ++ [i]

/-- `this.tabs[i]` truthiness. -/
def tabMem (tabs : List Int) (i : Int) : Bool := tabs.contains i

/-- Loop of `prevStop`: `while (!this.tabs[--x] && x > 0);`. -/
def prevStopLoop (tabs : List Int) : Nat → Int → Int
  | 0, x => x
  | fuel + 1, x =>
    let x' := x - 1
    if ¬tabMem tabs x' ∧ x' > 0 then prevStopLoop tabs fuel x' else x'

/-- `prevStop(x?)`. -/
def prevStop (st : Term) (x : Int) : Int :=
  let r := prevStopLoop st.tabs (x.toNat + 1) x
  if r ≥ st.cols then st.cols - 1 else if r < 0 then 0 else r

/-- Loop of `nextStop`: `while (!this.tabs[++x] && x < this.cols);`. -/
def nextStopLoop (tabs : List Int) (cols : Int) : Nat → Int → Int
  | 0, x => x
  | fuel + 1, x =>
    let x' := x + 1
    if ¬tabMem tabs x' ∧ x' < cols then nextStopLoop tabs cols fuel x' else x'

/-- `nextStop(x?)`. -/
def nextStop (st : Term) (x : Int) : Int :=
  let r := nextStopLoop st.tabs st.cols ((st.cols - x).toNat + 1) x
  if r ≥ st.cols then st.cols - 1 else if r < 0 then 0 else r

/-- Stop-adding loop of `setupStops`: `for (; i < this.cols; i += 8)`. -/
def addStops (cols : Int) : Nat → Int → List Int → List Int
  | 0, _, tabs => tabs
  | fuel + 1, i, tabs =>
    if i < cols then addStops cols fuel (i + 8) (tabAdd tabs i) else tabs

/-- `setupStops(i?)`; `none` is the no-argument call which rebuilds all
stops, `some i` keeps the table and extends from the previous stop. -/
def setupStops (st : Term) (iArg : Option Int) : Term :=
  match iArg with
  | none =>
    { st with tabs := addStops st.cols (st.cols.toNat + 8) 0 [] }
  | some i0 =>
    let i := if tabMem st.tabs i0 then i0 else prevStop st i0
    { st with tabs := addStops st.cols ((st.cols - i).toNat + 8) i st.tabs }

/-- `setgLevel(g)`. -/
def setgLevel (st : Term) (g : Nat) : Term :=
  { st with glevel := g, charset := (st.charsets.get? g).getD none }

/-- `setgCharset(g, charset)`; a `null`/`undefined` bank index is a JS
property write, invisible to the array. -/
def setgCharset (st : Term) (g : Option Nat) (cs : Option CSTable) : Term :=
  match g with
  | none => st
  | some gi =>
    { st with charsets := jsSet st.charsets (gi : Int) cs none,
              charset := if st.glevel = gi then cs else st.charset }

/-- `_resetVariables()` (blink/focus/refresh bookkeeping excluded). -/
def resetVariables (st : Term) : Term :=
  let defA : Nat := (0 <<< 18) ||| (257 <<< 9) ||| (256 <<< 0)
  let st := { st with
    ybase := 0, ydisp := 0, x := 0, y := 0,
    cursorHidden := false,
    sendQ := "",                    -- `this.queue = ''`
    scrollTop := 0, scrollBottom := st.rows - 1,
    applicationKeypad := false, applicationCursor := false,
    originMode := false, insertMode := false, wraparoundMode := false,
    normal := none,
    entry := "", entryPfx := "Search: ",
    charset := none, gcharset := none, glevel := 0, charsets := [none],
    readable := true, writable := true,
    defAttr := defA, curAttr := defA,
    params := [], currentParam := .num 0, pfx := "", postfx := "" }
  let st := { st with
    lines := if ¬st.physicalScroll then List.replicate st.rows.toNat (blankLine st false) else [] }
  setupStops st none

/-- `reset()` (RIS): `_resetVariables` plus a screen refresh (rendering). -/
def reset (st : Term) : Term := resetVariables st

/-- `scroll()`; the physical-scroll spill buffer feeds the renderer and is
not part of the state model. -/
def scroll (st : Term) : Term :=
  let st :=
    if ¬st.physicalScroll then
      let st := { st with ybase := st.ybase + 1 }
      if st.ybase > st.scrollback then
        let st := { st with ybase := st.ybase - 1 }
        { st with lines := jsSliceFrom st.lines (-(st.ybase + st.rows) + 1) }
      else st
    else
      { st with lines := jsSliceFrom st.lines (-(st.ybase + st.rows) + 1) }
  let st := { st with ydisp := st.ybase }
  let lastline := st.ybase + st.rows - 1
  let row := lastline - (st.rows - 1 - st.scrollBottom)
  let st := { st with lines := jsSpliceIns st.lines row (blankLine st false) }
  if st.scrollTop ≠ 0 then
    let st := if st.ybase ≠ 0 then
        { st with ybase := st.ybase - 1, ydisp := st.ybase - 1 }
      else st
    { st with lines := jsSpliceDel st.lines (st.ybase + st.scrollTop) 1 }
  else st

/-- `index()` (ESC D / IND). -/
def indexOp (st : Term) : Term :=
  let st := { st with y := st.y + 1 }
  let st := if st.y > st.scrollBottom then scroll { st with y := st.y - 1 } else st
  { st with state := .normal }

/-- `reverseIndex()` (ESC M / RI). -/
def reverseIndex (st : Term) : Term :=
  let st := { st with y := st.y - 1 }
  let st :=
    if st.y < st.scrollTop then
      let st := { st with y := st.y + 1 }
      let st := { st with lines := jsSpliceIns st.lines (st.y + st.ybase) (blankLine st true) }
      let j := st.rows - 1 - st.scrollBottom
      { st with lines := jsSpliceDel st.lines (st.rows - 1 + st.ybase - j + 1) 1 }
    else st
  { st with state := .normal }

/-- `tabSet()` (ESC H / HTS). -/
def tabSet (st : Term) : Term :=
  { st with tabs := tabAdd st.tabs st.x, state := .normal }

/-- `_getRow`'s growth loop: extend `lines` with blank rows until `r` exists. -/
def ensureRow (st : Term) (r : Int) : Term :=
  if r < 0 then st
  else if r.toNat < st.lines.length then st
  else { st with
    lines := st.lines ++ List.replicate (r.toNat + 1 - st.lines.length) (blankLine st false) }

/-- `_getRow(r)`: grow, then read the row. -/
def getRowE (st : Term) (r : Int) : Term × List Cell :=
  (ensureRow st r, (jsGet (ensureRow st r).lines r).getD [])

/-- Write back a row that was mutated through its JS reference. -/
def putRow (st : Term) (r : Int) (row : List Cell) : Term :=
  { st with lines := jsSet st.lines r row [] }

/-- Fill loop of `fillRight`: `for (; x < this.cols; x++) line[x] = cell`. -/
def fillCellsRight (cols : Int) (cell : Cell) : Nat → Int → List Cell → List Cell
  | 0, _, line => line
  | fuel + 1, x, line =>
    if x < cols then fillCellsRight cols cell fuel (x + 1) (jsSet line x cell cell)
    else line

/-- `fillRight(x, y, ch)`. -/
def fillRight (st : Term) (x y : Int) (chr : Char) : Term :=
  let (st, line) := getRowE st (st.ybase + y)
  let cell : Cell := (eraseAttr st, chr)
  putRow st (st.ybase + y) (fillCellsRight st.cols cell ((st.cols - x).toNat + 1) x line)

/-- `eraseRight(x, y)`. -/
def eraseRight (st : Term) (x y : Int) : Term := fillRight st x y ' '

/-- Fill loop of `eraseLeft`: cells `x` down to `0`. -/
def fillCellsLeft (cell : Cell) : Nat → Int → List Cell → List Cell
  | 0, _, line => line
  | fuel + 1, x, line =>
    if x ≠ 0 then fillCellsLeft cell fuel (x - 1) (jsSet line (x - 1) cell cell)
    else line

/-- `eraseLeft(x, y)`. -/
def eraseLeft (st : Term) (x y : Int) : Term :=
  let (st, line) := getRowE st (st.ybase + y)
  let cell : Cell := (eraseAttr st, ' ')
  putRow st (st.ybase + y) (fillCellsLeft cell ((x + 1).toNat + 1) (x + 1) line)

/-- `eraseLine(y)`. -/
def eraseLine (st : Term) (y : Int) : Term := eraseRight st 0 y

/-- Row loop of `fillScreen`: `let j = this.rows; while (j--) fillRight(0, j)`. -/
def fillScreenLoop (chr : Char) : Nat → Term → Term
  | 0, st => st
  | j + 1, st => fillScreenLoop chr j (fillRight st 0 (j : Int) chr)

/-- `fillScreen(fillChar)`. -/
def fillScreen (st : Term) (chr : Char) : Term :=
  fillScreenLoop chr st.rows.toNat st

/-- `is(term)`: `termName.indexOf(term) === 0`, i.e. a prefix test. -/
def isTerm (st : Term) (t : String) : Bool :=
  t.toList.isPrefixOf st.termName.toList

/-- `handleTitle` (also emitted to the `title` event). -/
def handleTitle (st : Term) (t : String) : Term := { st with title := t }

/-- Numeric view of a parser parameter (CSI parameters are always numbers). -/
def toNumD0 (p : JsParam) : Nat :=
  match p with
  | .num n => n
  | .str _ => 0

/-- `params[i]` as a number, when present and numeric. -/
def pN (ps : List JsParam) (i : Nat) : Option Nat :=
  match ps.get? i with
  | some (.num n) => some n
  | _ => none

/-- `var param = params[0]; if (param < 1) param = 1;`. -/
def p0D1 (ps : List JsParam) : Nat :=
  match pN ps 0 with
  | some v => if v < 1 then 1 else v
  | none => 1

/-- `var param = params[0] || 1;`. -/
def p0Or1 (ps : List JsParam) : Nat :=
  match pN ps 0 with
  | some v => if v = 0 then 1 else v
  | none => 1

/-- JS string coercion of a parameter (`'' + p`). -/
def jsToStr (p : JsParam) : String :=
  match p with
  | .num n => toString n
  | .str s => s

/-- JS truthiness of `currentParam`. -/
def jsFalsy (p : JsParam) : Bool :=
  match p with
  | .num n => n = 0
  | .str s => s = ""

/-- `currentParam += ch` (JS `+` coerces a number to a string). -/
def jsAppendChar (p : JsParam) (c : Char) : JsParam :=
  match p with
  | .str s => .str (s.push c)
  | .num n => .str ((toString n).push c)

end TermEm

namespace TermEm

/-- CSI A, Cursor Up (CUU). -/
def cursorUp (st : Term) (ps : List JsParam) : Term :=
  let p : Int := p0D1 ps
  let y := st.y - p
  { st with y := if y < 0 then 0 else y }

/-- CSI B, Cursor Down (CUD). -/
def cursorDown (st : Term) (ps : List JsParam) : Term :=
  let p : Int := p0D1 ps
  let y := st.y + p
  { st with y := if y ≥ st.rows then st.rows - 1 else y }

/-- CSI C, Cursor Forward (CUF). -/
def cursorForward (st : Term) (ps : List JsParam) : Term :=
  let p : Int := p0D1 ps
  let x := st.x + p
  { st with x := if x ≥ st.cols then st.cols - 1 else x }

/-- CSI D, Cursor Backward (CUB). -/
def cursorBackward (st : Term) (ps : List JsParam) : Term :=
  let p : Int := p0D1 ps
  let x := st.x - p
  { st with x := if x < 0 then 0 else x }

/-- CSI H, Cursor Position (CUP). -/
def cursorPos (st : Term) (ps : List JsParam) : Term :=
  let row : Int := ((pN ps 0).getD 0 : Int) - 1
  let col : Int := if ps.length ≥ 2 then ((pN ps 1).getD 0 : Int) - 1 else 0
  let row := if row < 0 then 0 else if row ≥ st.rows then st.rows - 1 else row
  let col := if col < 0 then 0 else if col ≥ st.cols then st.cols - 1 else col
  { st with x := col, y := row }

/-- Row loop of `eraseInDisplay` case 0: rows `y+1 .. rows-1`. -/
def eraseRowsDown (st : Term) : Nat → Int → Term
  | 0, _ => st
  | fuel + 1, j =>
    if j < st.rows then eraseRowsDown (eraseLine st j) fuel (j + 1) else st

/-- Row loop of `eraseInDisplay` cases 1/2: `while (j--) eraseLine(j)`. -/
def eraseRowsUp (st : Term) : Nat → Int → Term
  | 0, _ => st
  | fuel + 1, j =>
    if j ≠ 0 then eraseRowsUp (eraseLine st (j - 1)) fuel (j - 1) else st

/-- CSI J, Erase in Display (ED). -/
def eraseInDisplay (st : Term) (ps : List JsParam) : Term :=
  match pN ps 0 with
  | some 0 =>
    let st := eraseRight st st.x st.y
    eraseRowsDown st (st.rows - (st.y + 1)).toNat (st.y + 1)
  | some 1 =>
    let st := eraseLeft st st.x st.y
    eraseRowsUp st st.y.toNat st.y
  | some 2 =>
    eraseRowsUp st st.rows.toNat st.rows
  | _ => st  -- case 3: no saved lines; unknown parameters fall through

/-- CSI K, Erase in Line (EL). -/
def eraseInLine (st : Term) (ps : List JsParam) : Term :=
  match pN ps 0 with
  | some 0 => eraseRight st st.x st.y
  | some 1 => eraseLeft st st.x st.y
  | some 2 => eraseLine st st.y
  | _ => st

/-- The 38;2;r;g;b / 48;2;r;g;b color computation of `charAttributes`:
nearest palette match of the given (masked) channel arguments. -/
def sgrColor256 (rest : List Nat) : Nat :=
  let m := matchColor ((rest.getD 1 0 &&& 0xff : Nat) : Int)
                      ((rest.getD 2 0 &&& 0xff : Nat) : Int)
                      ((rest.getD 3 0 &&& 0xff : Nat) : Int)
  if m = -1 then 0x1ff else m.toNat

/-- One pass of the `charAttributes` accumulator loop over the numeric
parameters (`(flags, fg, bg)` state); 38/48 consume their color arguments
exactly as the source's index arithmetic does.  The fuel argument only
enforces structural recursion; any value at least the list length is exact. -/
def sgrLoop (defA : Nat) : Nat → List Nat → Nat × Nat × Nat → Nat × Nat × Nat
  | 0, _, acc => acc
  | _ + 1, [], acc => acc
  | fuel + 1, p :: rest, (flags, fg, bg) =>
    if 30 ≤ p ∧ p ≤ 37 then sgrLoop defA fuel rest (flags, p - 30, bg)
    else if 40 ≤ p ∧ p ≤ 47 then sgrLoop defA fuel rest (flags, fg, p - 40)
    else if 90 ≤ p ∧ p ≤ 97 then sgrLoop defA fuel rest (flags, p + 8 - 90, bg)
    else if 100 ≤ p ∧ p ≤ 107 then sgrLoop defA fuel rest (flags, fg, p + 8 - 100)
    else if p = 0 then
      sgrLoop defA fuel rest (defA >>> 18, (defA >>> 9) &&& 0x1ff, defA &&& 0x1ff)
    else if p = 1 then sgrLoop defA fuel rest (flags ||| 1, fg, bg)
    else if p = 4 then sgrLoop defA fuel rest (flags ||| 2, fg, bg)
    else if p = 5 then sgrLoop defA fuel rest (flags ||| 4, fg, bg)
    else if p = 7 then sgrLoop defA fuel rest (flags ||| 8, fg, bg)
    else if p = 8 then sgrLoop defA fuel rest (flags ||| 16, fg, bg)
    else if p = 22 then sgrLoop defA fuel rest (flags &&& 0xFFFFFFFE, fg, bg)
    else if p = 24 then sgrLoop defA fuel rest (flags &&& 0xFFFFFFFD, fg, bg)
    else if p = 25 then sgrLoop defA fuel rest (flags &&& 0xFFFFFFFB, fg, bg)
    else if p = 27 then sgrLoop defA fuel rest (flags &&& 0xFFFFFFF7, fg, bg)
    else if p = 28 then sgrLoop defA fuel rest (flags &&& 0xFFFFFFEF, fg, bg)
    else if p = 39 then sgrLoop defA fuel rest (flags, (defA >>> 9) &&& 0x1ff, bg)
    else if p = 49 then sgrLoop defA fuel rest (flags, fg, defA &&& 0x1ff)
    else if p = 38 then
      if rest.get? 0 = some 2 then
        sgrLoop defA fuel (rest.drop 4) (flags, sgrColor256 rest, bg)
      else if rest.get? 0 = some 5 then
        sgrLoop defA fuel (rest.drop 2) (flags, rest.getD 1 0 &&& 0xff, bg)
      else sgrLoop defA fuel rest (flags, fg, bg)
    else if p = 48 then
      if rest.get? 0 = some 2 then
        sgrLoop defA fuel (rest.drop 4) (flags, fg, sgrColor256 rest)
      else if rest.get? 0 = some 5 then
        sgrLoop defA fuel (rest.drop 2) (flags, fg, rest.getD 1 0 &&& 0xff)
      else sgrLoop defA fuel rest (flags, fg, bg)
    else if p = 100 then
      -- shadowed by the 100..107 arm above; kept for textual fidelity
      sgrLoop defA fuel rest (flags, (defA >>> 9) &&& 0x1ff, defA &&& 0x1ff)
    else
      -- unknown SGR attribute: logged and skipped
      sgrLoop defA fuel rest (flags, fg, bg)
/-- CSI m, Character Attributes (SGR). -/
def charAttributes (st : Term) (ps : List JsParam) : Term :=
  if ps = [.num 0] then { st with curAttr := st.defAttr }
  else
    let (flags, fg, bg) :=
      sgrLoop st.defAttr ps.length (ps.map toNumD0)
        (st.curAttr >>> 18, (st.curAttr >>> 9) &&& 0x1ff, st.curAttr &&& 0x1ff)
    { st with curAttr := (flags <<< 18) ||| (fg <<< 9) ||| bg }

/-- CSI n, Device Status Report (DSR). -/
def deviceStatus (st : Term) (ps : List JsParam) : Term :=
  if st.pfx = "" then
    match pN ps 0 with
    | some 5 => send st "\x1b[0n"
    | some 6 =>
      send st ("\x1b[" ++ toString (st.y + 1) ++ ";" ++ toString (st.x + 1) ++ "R")
    | _ => st
  else if st.pfx = "?" then
    match pN ps 0 with
    | some 6 =>
      send st ("\x1b[?" ++ toString (st.y + 1) ++ ";" ++ toString (st.x + 1) ++ "R")
    | _ => st
  else st

/-- Loop of `insertChars`: `while (param-- && j < this.cols)`. -/
def insertCharsLoop (row : Int) (cell : Cell) : Nat → Int → Term → Term
  | 0, _, st => st
  | n + 1, j, st =>
    if j < st.cols then
      let (st, line) := getRowE st row
      insertCharsLoop row cell n (j + 1)
        (putRow st row ((jsSpliceIns line j cell).dropLast))
    else st

/-- CSI @, Insert Characters (ICH). -/
def insertChars (st : Term) (ps : List JsParam) : Term :=
  insertCharsLoop (st.y + st.ybase) (eraseAttr st, ' ') (p0D1 ps) st.x st

/-- CSI E, Cursor Next Line (CNL). -/
def cursorNextLine (st : Term) (ps : List JsParam) : Term :=
  let p : Int := p0D1 ps
  let y := st.y + p
  { st with y := if y ≥ st.rows then st.rows - 1 else y, x := 0 }

/-- CSI F, Cursor Preceding Line (CPL). -/
def cursorPrecedingLine (st : Term) (ps : List JsParam) : Term :=
  let p : Int := p0D1 ps
  let y := st.y - p
  { st with y := if y < 0 then 0 else y, x := 0 }

/-- CSI G, Cursor Character Absolute (CHA); note: no right-margin clamp. -/
def cursorCharAbsolute (st : Term) (ps : List JsParam) : Term :=
  { st with x := (p0D1 ps : Int) - 1 }

/-- Loop of `insertLines`. -/
def insertLinesLoop (row j : Int) : Nat → Term → Term
  | 0, st => st
  | n + 1, st =>
    let st := ensureRow st row
    let st := { st with lines := jsSpliceIns st.lines row (blankLine st true) }
    insertLinesLoop row j n { st with lines := jsSpliceDel st.lines j 1 }

/-- CSI L, Insert Lines (IL). -/
def insertLines (st : Term) (ps : List JsParam) : Term :=
  let row := st.y + st.ybase
  let j := st.rows - 1 - st.scrollBottom
  let j := st.rows - 1 + st.ybase - j + 1
  insertLinesLoop row j (p0D1 ps) st

/-- Loop of `deleteLines`. -/
def deleteLinesLoop (row j : Int) : Nat → Term → Term
  | 0, st => st
  | n + 1, st =>
    let st := ensureRow st (j + 1)
    let st := { st with lines := jsSpliceIns st.lines (j + 1) (blankLine st true) }
    deleteLinesLoop row j n { st with lines := jsSpliceDel st.lines row 1 }

/-- CSI M, Delete Lines (DL). -/
def deleteLines (st : Term) (ps : List JsParam) : Term :=
  let row := st.y + st.ybase
  let j := st.rows - 1 - st.scrollBottom
  let j := st.rows - 1 + st.ybase - j
  deleteLinesLoop row j (p0D1 ps) st

/-- Loop of `deleteChars`; `this.lines[row]` is read without `_getRow`, so a
missing row throws (modelled by `crashed`). -/
def deleteCharsLoop (row : Int) (cell : Cell) : Nat → Term → Term
  | 0, st => st
  | n + 1, st =>
    match jsGet st.lines row with
    | none => { st with crashed := true }
    | some line =>
      deleteCharsLoop row cell n (putRow st row (jsSpliceDel line st.x 1 ++ [cell]))

/-- CSI P, Delete Characters (DCH). -/
def deleteChars (st : Term) (ps : List JsParam) : Term :=
  deleteCharsLoop (st.y + st.ybase) (eraseAttr st, ' ') (p0D1 ps) st

/-- Fill loop of `eraseChars`: `while (param-- && j < this.cols)`. -/
def eraseCharsLoop (cols : Int) (cell : Cell) : Nat → Int → List Cell → List Cell
  | 0, _, line => line
  | n + 1, j, line =>
    if j < cols then eraseCharsLoop cols cell n (j + 1) (jsSet line j cell cell)
    else line

/-- CSI X, Erase Characters (ECH). -/
def eraseChars (st : Term) (ps : List JsParam) : Term :=
  let row := st.y + st.ybase
  let (st, line) := getRowE st row
  putRow st row (eraseCharsLoop st.cols (eraseAttr st, ' ') (p0D1 ps) st.x line)

/-- CSI `` ` ``, Character Position Absolute (HPA). -/
def charPosAbsolute (st : Term) (ps : List JsParam) : Term :=
  let x : Int := (p0D1 ps : Int) - 1
  { st with x := if x ≥ st.cols then st.cols - 1 else x }

/-- CSI a, Horizontal Position Relative (HPR). -/
def HPositionRelative (st : Term) (ps : List JsParam) : Term :=
  let x := st.x + (p0D1 ps : Int)
  { st with x := if x ≥ st.cols then st.cols - 1 else x }

/-- CSI c, Send Device Attributes (DA1 / DA2). -/
def sendDeviceAttributes (st : Term) (ps : List JsParam) : Term :=
  if (pN ps 0).getD 0 > 0 then st
  else if st.pfx = "" then
    if isTerm st "xterm" || isTerm st "rxvt-unicode" || isTerm st "screen" then
      send st "\x1b[?1;2c"
    else if isTerm st "linux" then send st "\x1b[?6c"
    else st
  else if st.pfx = ">" then
    if isTerm st "xterm" then send st "\x1b[>0;276;0c"
    else if isTerm st "rxvt-unicode" then send st "\x1b[>85;95;0c"
    else if isTerm st "linux" then send st (toString ((pN ps 0).getD 0) ++ "c")
    else if isTerm st "screen" then send st "\x1b[>83;40003;0c"
    else st
  else st

/-- CSI d, Line Position Absolute (VPA). -/
def linePosAbsolute (st : Term) (ps : List JsParam) : Term :=
  let y : Int := (p0D1 ps : Int) - 1
  { st with y := if y ≥ st.rows then st.rows - 1 else y }

/-- CSI e, Vertical Position Relative (VPR). -/
def VPositionRelative (st : Term) (ps : List JsParam) : Term :=
  let y := st.y + (p0D1 ps : Int)
  { st with y := if y ≥ st.rows then st.rows - 1 else y }

/-- CSI f, Horizontal and Vertical Position (HVP).  A bare `CSI f` leaves
`params[1]` undefined and poisons `x` with NaN in JS; the model uses the
default column instead (the only use of this corner). -/
def HVPosition (st : Term) (ps : List JsParam) : Term :=
  let p0 := p0D1 ps
  let p1 := match pN ps 1 with
    | some v => if v < 1 then 1 else v
    | none => 1
  let y : Int := (p0 : Int) - 1
  let x : Int := (p1 : Int) - 1
  { st with y := if y ≥ st.rows then st.rows - 1 else y,
            x := if x ≥ st.cols then st.cols - 1 else x }

end TermEm

namespace TermEm

/-- Column-growth pass of `resize`: pad every line to `newcols`. -/
def padLines (lines : List (List Cell)) (newcols : Nat) (cell : Cell) : List (List Cell) :=
  lines.map (fun line => line ++ List.replicate (newcols - line.length) cell)

/-- Column-shrink pass of `resize`: pop every line down to `newcols`. -/
def truncLines (lines : List (List Cell)) (newcols : Nat) : List (List Cell) :=
  lines.map (fun line => line.take newcols)

/-- Row-growth loop of `resize`: up to `newrows - rows` conditional pushes. -/
def growRows (newrows : Int) : Nat → Term → Term
  | 0, st => st
  | n + 1, st =>
    let st :=
      if (st.lines.length : Int) < newrows + st.ybase then
        { st with lines := st.lines ++ [blankLine st false] }
      else st
    growRows newrows n st

/-- Row-shrink loop of `resize`: `while (lines.length > newrows + ybase) pop`. -/
def shrinkRows (newrows : Int) : Nat → Term → Term
  | 0, st => st
  | n + 1, st =>
    if (st.lines.length : Int) > newrows + st.ybase then
      shrinkRows newrows n { st with lines := st.lines.dropLast }
    else st

/-- `resize(newcols, newrows)` (DOM-children management excluded). -/
def resize (st : Term) (newcols0 newrows0 : Int) : Term :=
  let newcols := max newcols0 1
  let newrows := max newrows0 1
  let st :=
    if st.cols < newcols then
      { st with lines := padLines st.lines newcols.toNat (st.defAttr, ' ') }
    else if st.cols > newcols then
      { st with lines := truncLines st.lines newcols.toNat }
    else st
  let st := setupStops st (some st.cols)   -- called before `cols` is updated
  let st := { st with cols := newcols }
  let st :=
    if st.rows < newrows then
      if ¬st.physicalScroll then growRows newrows (newrows - st.rows).toNat st else st
    else if st.rows > newrows then
      shrinkRows newrows st.lines.length st
    else st
  let st := { st with rows := newrows }
  let st := { st with y := if st.y ≥ newrows then newrows - 1 else st.y }
  let st := { st with x := if st.x ≥ newcols then newcols - 1 else st.x }
  { st with scrollTop := 0, scrollBottom := newrows - 1, normal := none }

/-- CSI r, Set Scrolling Region (DECSTBM). -/
def setScrollRegion (st : Term) (ps : List JsParam) : Term :=
  if st.pfx ≠ "" then st
  else
    let top : Int := match pN ps 0 with
      | some v => if v = 0 then 1 else (v : Int)
      | none => 1
    let bot : Int := match pN ps 1 with
      | some v => if v = 0 then st.rows else (v : Int)
      | none => st.rows
    { st with scrollTop := top - 1, scrollBottom := bot - 1, x := 0, y := 0 }

/-- CSI s, save cursor. -/
def saveCursor (st : Term) : Term := { st with savedX := st.x, savedY := st.y }

/-- CSI u, restore cursor (`savedX || 0` only matters for undefined). -/
def restoreCursor (st : Term) : Term := { st with x := st.savedX, y := st.savedY }

/-- CSI I, Cursor Forward Tabulation (CHT). -/
def cursorForwardTab (st : Term) (ps : List JsParam) : Term :=
  (p0Or1 ps).fold (fun _ st => { st with x := nextStop st st.x }) st

/-- Loop body count helper for SU/SD. -/
def scrollUpLoop : Nat → Term → Term
  | 0, st => st
  | n + 1, st =>
    let st := { st with lines := jsSpliceDel st.lines (st.ybase + st.scrollTop) 1 }
    scrollUpLoop n
      { st with lines := jsSpliceIns st.lines (st.ybase + st.scrollBottom) (blankLine st false) }

/-- CSI S, Scroll Up (SU). -/
def scrollUp (st : Term) (ps : List JsParam) : Term := scrollUpLoop (p0Or1 ps) st

/-- Loop of SD. -/
def scrollDownLoop : Nat → Term → Term
  | 0, st => st
  | n + 1, st =>
    let st := { st with lines := jsSpliceDel st.lines (st.ybase + st.scrollBottom) 1 }
    scrollDownLoop n
      { st with lines := jsSpliceIns st.lines (st.ybase + st.scrollTop) (blankLine st false) }

/-- CSI T, Scroll Down (SD). -/
def scrollDown (st : Term) (ps : List JsParam) : Term := scrollDownLoop (p0Or1 ps) st

/-- CSI Z, Cursor Backward Tabulation (CBT). -/
def cursorBackwardTab (st : Term) (ps : List JsParam) : Term :=
  (p0Or1 ps).fold (fun _ st => { st with x := prevStop st st.x }) st

/-- Write loop of REP: `while (param--) { line[this.x] = ch; this.x++; }`;
note there is no right-margin check, the row is extended in place. -/
def repLoop (ch filler : Cell) : Nat → Int → List Cell → List Cell × Int
  | 0, x, line => (line, x)
  | n + 1, x, line => repLoop ch filler n (x + 1) (jsSet line x ch filler)

/-- CSI b, Repeat Preceding Character (REP). -/
def repeatPrecedingCharacter (st : Term) (ps : List JsParam) : Term :=
  let (st, line) := getRowE st (st.ybase + st.y)
  let ch := (jsGet line (st.x - 1)).getD (st.defAttr, ' ')
  let (line, x) := repLoop ch (st.defAttr, ' ') (p0Or1 ps) st.x line
  { putRow st (st.ybase + st.y) line with x := x }

/-- CSI g, Tab Clear (TBC). -/
def tabClear (st : Term) (ps : List JsParam) : Term :=
  match pN ps 0 with
  | some v =>
    if v = 0 then { st with tabs := st.tabs.filter (· ≠ st.x) }  -- `param <= 0`
    else if v = 3 then { st with tabs := [] }
    else st
  | none => st

/-- CSI ! p, Soft Terminal Reset (DECSTR). -/
def softReset (st : Term) : Term :=
  { st with
    cursorHidden := false, insertMode := false, originMode := false,
    wraparoundMode := false, applicationKeypad := false, applicationCursor := false,
    scrollTop := 0, scrollBottom := st.rows - 1,
    curAttr := st.defAttr, x := 0, y := 0,
    charset := none, glevel := 0, charsets := [none] }

/-- The alternate-screen entry arm of `setMode` (`?47h`/`?1047h`/`?1049h`):
snapshot the primary screen, reset, and restore only the charset state. -/
def altEnter (st : Term) : Term :=
  match st.normal with
  | some _ => st
  | none =>
    let snap : SavedState :=
      { cols := st.cols, rows := st.rows, lines := st.lines,
        ybase := st.ybase, ydisp := st.ydisp, x := st.x, y := st.y,
        scrollTop := st.scrollTop, scrollBottom := st.scrollBottom, tabs := st.tabs }
    let pc := st.charset
    let pg := st.glevel
    let pcs := st.charsets
    let st := reset st
    { st with charset := pc, glevel := pg, charsets := pcs, normal := some snap }

/-- The alternate-screen exit arm of `resetMode` (`?47l`/`?1047l`/`?1049l`):
restore the snapshot, then `resize` back to the current geometry. -/
def altExit (st : Term) : Term :=
  match st.normal with
  | none => st
  | some n =>
    let currentcols := st.cols
    let currentrows := st.rows
    let st := { st with
      lines := n.lines, cols := n.cols, rows := n.rows,
      ybase := n.ybase, ydisp := n.ydisp, x := n.x, y := n.y,
      scrollTop := n.scrollTop, scrollBottom := n.scrollBottom,
      tabs := n.tabs, normal := none }
    resize st currentcols currentrows

/-- `setMode` on a single numeric code. -/
def setModeOne (st : Term) (p : JsParam) : Term :=
  match p with
  | .str _ => st
  | .num v =>
    if st.pfx = "" then
      if v = 4 then { st with insertMode := true } else st
    else if st.pfx = "?" then
      if v = 1 then { st with applicationCursor := true }
      else if v = 2 then
        -- designate US (null) for G0..G3
        let st := setgCharset st (some 0) none
        let st := setgCharset st (some 1) none
        let st := setgCharset st (some 2) none
        setgCharset st (some 3) none
      else if v = 3 then
        resize { st with savedCols := some st.cols } 132 st.rows
      else if v = 6 then { st with originMode := true }
      else if v = 7 then { st with wraparoundMode := true }
      else if v = 66 then { st with applicationKeypad := true }
      else if v = 9 ∨ v = 1000 ∨ v = 1002 ∨ v = 1003 then
        { st with x10Mouse := v = 9, vt200Mouse := v = 1000,
                  normalMouse := v > 1000, mouseEvents := true }
      else if v = 1004 then { st with sendFocus := true }
      else if v = 1005 then { st with utfMouse := true }
      else if v = 1006 then { st with sgrMouse := true }
      else if v = 1015 then { st with urxvtMouse := true }
      else if v = 25 then { st with cursorHidden := false }
      else if v = 47 ∨ v = 1047 ∨ v = 1049 then altEnter st
      else st
    else st

/-- CSI h, Set Mode (SM): a list dispatches element-wise. -/
def setMode (st : Term) (ps : List JsParam) : Term :=
  ps.foldl setModeOne st

/-- `resetMode` on a single numeric code. -/
def resetModeOne (st : Term) (p : JsParam) : Term :=
  match p with
  | .str _ => st
  | .num v =>
    if st.pfx = "" then
      if v = 4 then { st with insertMode := false } else st
    else if st.pfx = "?" then
      if v = 1 then { st with applicationCursor := false }
      else if v = 3 then
        let st := fillScreen st ' '
        let st := { st with x := 0, y := 0 }
        match st.savedCols with
        | some c => if st.cols = 132 ∧ c ≠ 0 then resize st c st.rows else st
        | none => st
      else if v = 6 then { st with originMode := false }
      else if v = 7 then { st with wraparoundMode := false }
      else if v = 66 then { st with applicationKeypad := false }
      else if v = 9 ∨ v = 1000 ∨ v = 1002 ∨ v = 1003 then
        { st with x10Mouse := false, vt200Mouse := false,
                  normalMouse := false, mouseEvents := false }
      else if v = 1004 then { st with sendFocus := false }
      else if v = 1005 then { st with utfMouse := false }
      else if v = 1006 then { st with sgrMouse := false }
      else if v = 1015 then { st with urxvtMouse := false }
      else if v = 25 then { st with cursorHidden := true }
      else if v = 47 ∨ v = 1047 ∨ v = 1049 then altExit st
      else st
    else st

/-- CSI l, Reset Mode (RM): a list dispatches element-wise. -/
def resetMode (st : Term) (ps : List JsParam) : Term :=
  ps.foldl resetModeOne st

end TermEm

namespace TermEm

/-- The cell-write half of the `STATE_NORMAL` printable branch: insert-mode
splice, cell write, cursor advance, wide-character fixup (split out of
`printChar` below). -/
def printWrite (st0 : Term) (c : Char) : Term :=
  let st := ensureRow st0 (st0.y + st0.ybase)
  let line := (jsGet st.lines (st0.y + st0.ybase)).getD []
  let line :=
    if st.insertMode then
      let line := jsSpliceIns line st.x (st.curAttr, ' ')
      let line := if isWide c then jsSpliceIns line st.x (st.curAttr, ' ') else line
      -- `line.splice(this.cols, line.length - this.cols)`
      jsSpliceDel line st.cols (line.length - st.cols.toNat)
    else line
  let line := jsSet line st.x (st.curAttr, c) (st.defAttr, ' ')
  let st := putRow st (st.y + st.ybase) line
  let st := { st with x := st.x + 1 }
  if isWide c then
    let j := st.y + st.ybase
    if st.cols < 2 ∨ st.x ≥ st.cols then
      let (st, l) := getRowE st j
      putRow st j (jsSet l (st.x - 1) (st.curAttr, ' ') (st.defAttr, ' '))
    else
      let (st, l) := getRowE st j
      let st := putRow st j (jsSet l st.x (st.curAttr, ' ') (st.defAttr, ' '))
      { st with x := st.x + 1 }
  else st

/-- Printable-character handling of the `STATE_NORMAL` branch (`ch >= ' '`):
charset mapping, margin wrap, then the cell write (`printWrite`).
The `wraparoundMode` flag is not consulted anywhere on this path. -/
def printChar (st : Term) (c0 : Char) : Term :=
  let c := match st.charset with
    | some .scld => (scldMap c0).getD c0
    | none => c0
  let st :=
    if st.x ≥ st.cols then
      let st := { st with x := 0, y := st.y + 1 }
      if st.y > st.scrollBottom then scroll { st with y := st.y - 1 } else st
    else st
  printWrite st c

/-- `STATE_NORMAL` per-character handling. -/
def procNormal (st : Term) (c : Char) : Term :=
  if c = '\x07' then st  -- bell(): emitted, no state change
  else if c = '\x0a' ∨ c = '\x0b' ∨ c = '\x0c' then
    let st := if st.convertEol then { st with x := 0 } else st
    let st := { st with y := st.y + 1 }
    if st.y > st.scrollBottom then scroll { st with y := st.y - 1 } else st
  else if c = '\x0d' then { st with x := 0 }
  else if c = '\x08' then
    if st.x > 0 then { st with x := st.x - 1 } else st
  else if c = '\x09' then { st with x := nextStop st st.x }
  else if c = '\x0e' then setgLevel st 1
  else if c = '\x0f' then setgLevel st 0
  else if c = '\x1b' then { st with state := .escape }
  else if charCode c ≥ 32 then printChar st c  -- `ch >= ' '`
  else st

/-- Final-byte dispatch of `_processDataCSI` (commented-out arms omitted;
unknown finals are logged and skipped). -/
def csiDispatch (st : Term) (c : Char) : Term :=
  let ps := st.params
  match c with
  | 'A' => cursorUp st ps
  | 'B' => cursorDown st ps
  | 'C' => cursorForward st ps
  | 'D' => cursorBackward st ps
  | 'H' => cursorPos st ps
  | 'J' => eraseInDisplay st ps
  | 'K' => eraseInLine st ps
  | 'm' => if st.pfx = "" then charAttributes st ps else st
  | 'n' => if st.pfx = "" then deviceStatus st ps else st
  | '@' => insertChars st ps
  | 'E' => cursorNextLine st ps
  | 'F' => cursorPrecedingLine st ps
  | 'G' => cursorCharAbsolute st ps
  | 'L' => insertLines st ps
  | 'M' => deleteLines st ps
  | 'P' => deleteChars st ps
  | 'X' => eraseChars st ps
  | '\x60' => charPosAbsolute st ps
  | 'a' => HPositionRelative st ps
  | 'c' => sendDeviceAttributes st ps
  | 'd' => linePosAbsolute st ps
  | 'e' => VPositionRelative st ps
  | 'f' => HVPosition st ps
  | 'h' => setMode st ps
  | 'l' => resetMode st ps
  | 'r' => setScrollRegion st ps
  | 's' => saveCursor st
  | 'u' => restoreCursor st
  | 'I' => cursorForwardTab st ps
  | 'S' => scrollUp st ps
  | 'T' => if ps.length < 2 ∧ st.pfx = "" then scrollDown st ps else st
  | 'Z' => cursorBackwardTab st ps
  | 'b' => repeatPrecedingCharacter st ps
  | 'g' => tabClear st ps
  | 'p' => if st.pfx = "!" then softReset st else st
  | _ => st

/-- `_processDataCSI`: prefix/digit/postfix accumulation and dispatch. -/
def procCsi (st : Term) (c : Char) : Term :=
  if c = '?' ∨ c = '>' ∨ c = '!' then { st with pfx := c.toString }
  else if '0' ≤ c ∧ c ≤ '9' then
    { st with currentParam := .num (toNumD0 st.currentParam * 10 + (charCode c - 48)) }
  else if c = '$' ∨ c = '"' ∨ c = ' ' ∨ c = '\x27' then { st with postfx := c.toString }
  else
    let st := { st with params := st.params ++ [st.currentParam], currentParam := .num 0 }
    if c = ';' then st
    else
      let st := { st with state := .normal }
      let st := csiDispatch st c
      { st with pfx := "", postfx := "" }

/-- `_processDataEscape`; the returned `Nat` is the number of extra input
characters consumed beyond the current one (the source's `i++`; the `ESC /`
arm is the source's `i--` + immediate reprocessing of `/` in
`STATE_CHARSET`, which designates ISOLatin into G3 and consumes one more
character - inlined here as a single step). -/
def procEscape (st : Term) (c : Char) : Term × Nat :=
  match c with
  | '[' => ({ st with params := [], currentParam := .num 0, state := .csi }, 0)
  | ']' => ({ st with params := [], currentParam := .num 0, state := .osc }, 0)
  | '&' => ({ st with params := [], currentParam := .str "", state := .appStart }, 0)
  | 'P' => ({ st with params := [], currentParam := .num 0, state := .dcs }, 0)
  | '_' => ({ st with state := .ignoreSt }, 0)
  | '^' => ({ st with state := .ignoreSt }, 0)
  | 'c' => (reset st, 0)   -- note: `state` is left as STATE_ESCAPE by the source
  | 'E' => (indexOp { st with x := 0 }, 0)
  | 'D' => (indexOp st, 0)
  | 'M' => (reverseIndex st, 0)
  | '%' =>
    let st := setgLevel st 0
    let st := setgCharset st (some 0) none
    ({ st with state := .normal }, 1)   -- `i++`: the next byte is consumed
  | '(' => ({ st with gcharset := some 0, state := .charsetSt }, 0)
  | ')' => ({ st with gcharset := some 1, state := .charsetSt }, 0)
  | '*' => ({ st with gcharset := some 2, state := .charsetSt }, 0)
  | '+' => ({ st with gcharset := some 3, state := .charsetSt }, 0)
  | '-' => ({ st with gcharset := some 1, state := .charsetSt }, 0)
  | '.' => ({ st with gcharset := some 2, state := .charsetSt }, 0)
  | '/' =>
    let st := setgCharset { st with gcharset := some 3 } (some 3) none
    ({ st with gcharset := none, state := .normal }, 1)
  | 'N' => (st, 0)  -- SS2: accepted, no effect; state stays STATE_ESCAPE
  | 'O' => (st, 0)  -- SS3: accepted, no effect; state stays STATE_ESCAPE
  | 'n' => (setgLevel st 2, 0)   -- state stays STATE_ESCAPE in the source
  | 'o' => (setgLevel st 3, 0)
  | '\x7c' => (setgLevel st 3, 0)
  | '\x7d' => (setgLevel st 2, 0)
  | '~' => (setgLevel st 1, 0)
  | '7' => ({ saveCursor st with state := .normal }, 0)
  | '8' => ({ restoreCursor st with state := .normal }, 0)
  | '#' => ({ st with state := .decHash }, 0)
  | 'H' => (tabSet st, 0)
  | '=' => ({ st with applicationKeypad := true, state := .normal }, 0)
  | '>' => ({ st with applicationKeypad := false, state := .normal }, 0)
  | _ => ({ st with state := .normal }, 0)

/-- `_processDataCharset`: select a named table into the pending bank.
`/` (ISOLatin) consumes one further character. -/
def procCharset (st : Term) (c : Char) : Term × Nat :=
  let (cs, skip) : Option CSTable × Nat :=
    match c with
    | '0' => (some .scld, 0)
    | '/' => (none, 1)      -- ISOLatin (null table), `i++`
    | _ => (none, 0)        -- all other named charsets are null
  let st := setgCharset st st.gcharset cs
  ({ st with gcharset := none, state := .normal }, skip)

/-- `_processDataOSC`: `Ps` digits, one `;` split, then `Pt` until BEL/ST;
the ESC of a two-byte ST consumes the following byte. -/
def procOsc (st : Term) (c : Char) : Term × Nat :=
  if c = '\x1b' ∨ c = '\x07' then
    let skip := if c = '\x1b' then 1 else 0
    let st := { st with params := st.params ++ [st.currentParam] }
    let st :=
      match st.params.get? 0 with
      | some (.num 0) | some (.num 1) | some (.num 2) =>
        match st.params.get? 1 with
        | some p1 => if ¬jsFalsy p1 then handleTitle st (jsToStr p1) else st
        | none => st
      | _ => st
    ({ st with params := [], currentParam := .num 0, state := .normal }, skip)
  else if st.params = [] then
    if '0' ≤ c ∧ c ≤ '9' then
      ({ st with currentParam := .num (toNumD0 st.currentParam * 10 + (charCode c - 48)) }, 0)
    else if c = ';' then
      ({ st with params := st.params ++ [st.currentParam], currentParam := .str "" }, 0)
    else (st, 0)
  else
    ({ st with currentParam := jsAppendChar st.currentParam c }, 0)

/-- DECRQSS reply body for `_processDataDCS` case `$q`. -/
def decrqssReply (st : Term) (pt : JsParam) : String :=
  match pt with
  | .str s =>
    if s = "\x22q" then "0\x22q"
    else if s = "\x22p" then "61\x22p"
    else if s = "r" then
      toString (st.scrollTop + 1) ++ ";" ++ toString (st.scrollBottom + 1) ++ "r"
    else if s = "m" then "0m"
    else ""
  | .num _ => ""

/-- `_processDataDCS`. -/
def procDcs (st : Term) (c : Char) : Term × Nat :=
  if c = '\x1b' ∨ c = '\x07' then
    let skip := if c = '\x1b' then 1 else 0
    let st :=
      if st.pfx = "$q" then
        send st ("\x1bP0$r" ++ decrqssReply st st.currentParam ++ "\x1b\\")
      else if st.pfx = "+q" then
        send st ("\x1bP0+r" ++ jsToStr st.currentParam ++ "\x1b\\")
      else st   -- '' (DECUDK), '+p', unknown prefixes: no reply
    ({ st with currentParam := .num 0, pfx := "", state := .normal }, skip)
  else if jsFalsy st.currentParam then
    if st.pfx = "" ∧ c ≠ '$' ∧ c ≠ '+' then
      ({ st with currentParam := .str c.toString }, 0)
    else if st.pfx.length = 2 then
      ({ st with currentParam := .str c.toString }, 0)
    else
      ({ st with pfx := st.pfx.push c }, 0)
  else
    ({ st with currentParam := jsAppendChar st.currentParam c }, 0)

/-- `_processDataIgnore` (PM and APC bodies). -/
def procIgnore (st : Term) (c : Char) : Term × Nat :=
  if c = '\x1b' then ({ st with state := .normal }, 1)
  else if c = '\x07' then ({ st with state := .normal }, 0)
  else (st, 0)

/-- `_processDataApplicationStart`. -/
def procAppStart (st : Term) (c : Char) : Term :=
  if ('a' ≤ c ∧ c ≤ 'z') ∨ ('A' ≤ c ∧ c ≤ 'Z') ∨ ('0' ≤ c ∧ c ≤ '9') ∨
     c = '-' ∨ c = '/' then
    { st with currentParam := jsAppendChar st.currentParam c }
  else if c = ';' then
    { st with params := st.params ++ [st.currentParam], currentParam := .str "" }
  else if c = '\x07' then
    let st := { st with params := st.params ++ [st.currentParam] }
    let ok : Bool := match st.params.get? 0, st.applicationModeCookie with
      | some (.str s), some ck => s == ck
      | _, _ => false
    if ok then { st with state := .appEnd }   -- emits application-mode-start
    else { st with state := .normal }
  else { st with state := .normal }

/-- First NUL position in a list. -/
def idxOfNul : List Char → Option Nat
  | [] => none
  | c :: rest => if c = '\x00' then some 0 else (idxOfNul rest).map (· + 1)

/-- `_processDataApplicationEnd`: scan for the NUL end marker; the data
slices are emitted on the `application-mode-data` channel (not part of the
state model).  Returns how many characters of `rest` are consumed together
with `c`. -/
def procAppEnd (st : Term) (c : Char) (rest : List Char) : Term × Nat :=
  if c = '\x00' then ({ st with state := .normal }, 0)   -- emits application-mode-end
  else
    match idxOfNul rest with
    | none => (st, rest.length)        -- emit everything, stay in appEnd
    | some j => (st, j)                -- stop just before the NUL

/-- `_processDataDecHash`: only DECALN (`8`) does anything. -/
def procDecHash (st : Term) (c : Char) : Term :=
  let st := if c = '8' then fillScreen st 'E' else st
  { st with state := .normal }

/-- One iteration of the `_processWriteData` loop: handle `data[i]` in the
current parser state; the `Nat` is how many further characters are consumed
by this iteration (the handlers' `i++`&co). -/
def procCharFull (st : Term) (c : Char) (rest : List Char) : Term × Nat :=
  match st.state with
  | .normal => (procNormal st c, 0)
  | .escape => procEscape st c
  | .charsetSt => procCharset st c
  | .osc => procOsc st c
  | .csi => (procCsi st c, 0)
  | .dcs => procDcs st c
  | .ignoreSt => procIgnore st c
  | .appStart => (procAppStart st c, 0)
  | .appEnd => procAppEnd st c rest
  | .decHash => (procDecHash st c, 0)

/-- The character loop of `_processWriteData`; a crash (thrown TypeError)
aborts the remainder of the chunk.  The fuel argument only enforces
structural recursion; every iteration consumes at least one character, so
any fuel at least `data.length` is exact. -/
def runLoop : Nat → Term → List Char → Term
  | 0, st, _ => st
  | _ + 1, st, [] => st
  | fuel + 1, st, c :: rest =>
    if st.crashed then st
    else
      let (st', k) := procCharFull st c rest
      runLoop fuel st' (rest.drop k)

/-- Start-of-chunk bookkeeping of `_processWriteData`: clear the crash
marker (a fresh call can run even if the previous chunk aborted) and snap
the display offset back to the bottom. -/
def procStart (st : Term) : Term :=
  let st := { st with crashed := false }
  if st.ybase ≠ st.ydisp then { st with ydisp := st.ybase } else st

/-- `_processWriteData(data)`: the start-of-chunk bookkeeping, then the
character loop. -/
def procData (st : Term) (data : List Char) : Term :=
  runLoop data.length (procStart st) data

/-- Boundary alignment of one chunk: along the run, no handler lookahead
reaches past the end of the chunk.  Concretely, each iteration's extra
consumption (`i++` of the two-byte ST, `ESC %`, `ESC /`, charset `/`) stays
inside the chunk, and the application-mode payload scan finds its NUL end
marker inside the chunk. -/
def alignedRun : Nat → Term → List Char → Bool
  | 0, _, _ => true
  | _ + 1, _, [] => true
  | fuel + 1, st, c :: rest =>
    if st.crashed then true
    else if (procCharFull st c rest).2 ≤ rest.length ∧
        (st.state = .appEnd → c = '\x00' ∨ (idxOfNul rest).isSome = true) then
      alignedRun fuel (procCharFull st c rest).1
        (rest.drop (procCharFull st c rest).2)
    else false

/-- Engine construction with the given geometry and term name: the fields
set in the constructor, then `_resetVariables()` (defaults for the other
options). -/
def initTerm (cols rows : Int) (name : String) : Term :=
  resetVariables {
    cols := cols, rows := rows,
    ybase := 0, ydisp := 0, x := 0, y := 0, savedX := 0, savedY := 0,
    sendQ := "", scrollTop := 0, scrollBottom := rows - 1,
    applicationKeypad := false, applicationCursor := false,
    originMode := false, insertMode := false, wraparoundMode := false,
    normal := none, entry := "", entryPfx := "Search: ",
    charset := none, gcharset := none, glevel := 0, charsets := [none],
    readable := true, writable := true,
    defAttr := (257 <<< 9) ||| 256, curAttr := (257 <<< 9) ||| 256,
    params := [], currentParam := .num 0, pfx := "", postfx := "",
    lines := [], tabs := [], state := .normal,
    cursorHidden := false, sendFocus := false,
    x10Mouse := false, vt200Mouse := false, normalMouse := false,
    mouseEvents := false, utfMouse := false, sgrMouse := false,
    urxvtMouse := false, savedCols := none, title := "",
    convertEol := false, termName := name, scrollback := 1000,
    physicalScroll := false, applicationModeCookie := none,
    crashed := false }

/-- An 80x24 xterm engine, the default construction. -/
def initXterm : Term := initTerm 80 24 "xterm"

/-- Feed a string to the engine (one processed chunk). -/
def feed (st : Term) (s : String) : Term := procData st s.toList

end TermEm

namespace TermEm

/-- C1 (code bug): the claim says every row always has length exactly
`cols`, and in particular that REP (CSI b) never leaves a row longer than
`cols`.  On a fresh 2x2 terminal, writing `A` then `CSI 3 b` leaves row 0
with 4 cells: the REP write loop has no right-margin bound (unlike its
siblings `eraseChars`/`insertChars`) and extends the row in place. -/
theorem C1_rep_breaks_row_length :
    ((feed (initTerm 2 2 "xterm") "A\x1b[3b").lines.getD 0 []).length = 4 ∧
    (feed (initTerm 2 2 "xterm") "A\x1b[3b").cols = 2 := by
  constructor <;> decide

/-- C2 (code bug): the claim says `0 ≤ x ≤ cols` after each byte; the same
REP input drives the cursor to `x = 4` on a 2-column terminal. -/
theorem C2_rep_breaks_cursor_bound :
    (feed (initTerm 2 2 "xterm") "A\x1b[3b").x = 4 ∧
    (feed (initTerm 2 2 "xterm") "A\x1b[3b").cols = 2 ∧
    ¬ (feed (initTerm 2 2 "xterm") "A\x1b[3b").x ≤
        (feed (initTerm 2 2 "xterm") "A\x1b[3b").cols := by
  refine ⟨by decide, by decide, by decide⟩

/-- C3 counterexample: after `CSI 31 m`, entering the alternate screen with
`CSI ? 47 h` does NOT leave `curAttr` unchanged - the reset inside the
alt-screen arm restores it to the default attribute, and only the charset
state is preserved around the reset. -/
theorem C3_curAttr_not_preserved :
    (feed (feed (initTerm 2 2 "xterm") "\x1b[31m") "\x1b[?47h").curAttr ≠
    (feed (initTerm 2 2 "xterm") "\x1b[31m").curAttr := by decide

/-- C3 amended: entering the alternate screen (no snapshot present)
preserves `charsets`, the active `charset` and `glevel` across the reset,
resets `curAttr` to the default attribute, and snapshots geometry, lines,
cursor, scroll region and tab stops into `normal`. -/
theorem C3_alt_enter_partial_save (st : Term) (h : st.normal = none) :
    (altEnter st).charsets = st.charsets ∧
    (altEnter st).charset = st.charset ∧
    (altEnter st).glevel = st.glevel ∧
    (altEnter st).curAttr = (altEnter st).defAttr ∧
    (altEnter st).normal = some
      { lines := st.lines, cols := st.cols, rows := st.rows,
        ybase := st.ybase, ydisp := st.ydisp, x := st.x, y := st.y,
        scrollTop := st.scrollTop, scrollBottom := st.scrollBottom,
        tabs := st.tabs } := by
  simp [altEnter, h]
  rfl

/-- A concrete state with a red SGR attribute, for the C3 instances. -/
def c3State : Term := feed (initTerm 2 2 "xterm") "\x1b[31m"

/-- Witness for `C3_alt_enter_partial_save` at a concrete red-attribute
state. -/
theorem C3_alt_enter_partial_save_witness :
    c3State.normal = none ∧
    ((altEnter c3State).charsets = c3State.charsets ∧
     (altEnter c3State).charset = c3State.charset ∧
     (altEnter c3State).glevel = c3State.glevel ∧
     (altEnter c3State).curAttr = (altEnter c3State).defAttr ∧
     (altEnter c3State).normal = some
       { lines := c3State.lines, cols := c3State.cols, rows := c3State.rows,
         ybase := c3State.ybase, ydisp := c3State.ydisp,
         x := c3State.x, y := c3State.y,
         scrollTop := c3State.scrollTop, scrollBottom := c3State.scrollBottom,
         tabs := c3State.tabs }) :=
  ⟨by decide, C3_alt_enter_partial_save c3State (by decide)⟩

end TermEm

namespace TermEm

/-- C4 counterexample: set scroll region 2..10, enter and leave the
alternate screen on a fresh 80x24 terminal.  The snapshot held
`scrollTop = 1, scrollBottom = 9`, but after `CSI ? 47 l` the region is
`0..23`: the restore is immediately overwritten by the trailing `resize`. -/
theorem C4_region_not_restored :
    (feed initXterm "\x1b[2;10r\x1b[?47h\x1b[?47l").scrollTop ≠ 1 ∧
    (feed initXterm "\x1b[2;10r\x1b[?47h\x1b[?47l").scrollBottom ≠ 9 := by
  constructor <;> decide

/-- C4 amended: leaving the alternate screen restores the snapshot fields
but then calls `resize(cols, rows)`, which forces `scrollTop = 0` and
`scrollBottom = rows - 1`; the saved scroll region never survives. -/
theorem C4_alt_exit_resets_region (st : Term) (h : st.normal.isSome)
    (hr : 1 ≤ st.rows) :
    (altExit st).scrollTop = 0 ∧ (altExit st).scrollBottom = st.rows - 1 := by
  rcases hn : st.normal with _ | n
  · rw [hn] at h; exact absurd h (by simp)
  · simp only [altExit, hn]
    refine ⟨rfl, ?_⟩
    show max st.rows 1 - 1 = st.rows - 1
    rw [max_eq_left hr]

/-- Witness for `C4_alt_exit_resets_region` on a state inside the
alternate screen with a saved 2..10 region. -/
theorem C4_alt_exit_resets_region_witness :
    (feed initXterm "\x1b[2;10r\x1b[?47h").normal.isSome = true ∧
    1 ≤ (feed initXterm "\x1b[2;10r\x1b[?47h").rows ∧
    ((altExit (feed initXterm "\x1b[2;10r\x1b[?47h")).scrollTop = 0 ∧
     (altExit (feed initXterm "\x1b[2;10r\x1b[?47h")).scrollBottom =
       (feed initXterm "\x1b[2;10r\x1b[?47h").rows - 1) :=
  ⟨by decide, by decide,
   C4_alt_exit_resets_region _ (by decide) (by decide)⟩

end TermEm

namespace TermEm

end TermEm

namespace TermEm

set_option maxHeartbeats 1000000 in
/-- The fuel of `sgrLoop` is irrelevant once it covers the list length. -/
theorem sgrLoop_fuelCongr (defA : Nat) :
    ∀ f1 f2 (l : List Nat) (acc : Nat × Nat × Nat), l.length ≤ f1 → l.length ≤ f2 →
      sgrLoop defA f1 l acc = sgrLoop defA f2 l acc := by
  intro f1
  induction f1 with
  | zero =>
    intro f2 l acc h1 _
    have hl : l = [] := List.eq_nil_of_length_eq_zero (Nat.le_zero.mp h1)
    subst hl
    cases f2 <;> rfl
  | succ f1 ih =>
    intro f2 l acc h1 h2
    match l with
    | [] => cases f2 <;> rfl
    | p :: rest =>
      match f2 with
      | 0 => simp at h2
      | f2 + 1 =>
        obtain ⟨flags, fg, bg⟩ := acc
        simp only [List.length_cons, Nat.add_le_add_iff_right] at h1 h2
        rw [sgrLoop, sgrLoop]
        repeat' refine if_ctx_congr Iff.rfl (fun _ => ?_) (fun _ => ?_)
        all_goals (apply ih <;> (try simp only [List.length_drop]) <;> omega)

set_option maxHeartbeats 1000000 in
/-- `sgrLoop` distributes over append when the first part avoids the
argument-consuming parameters 38 and 48. -/
theorem sgrLoop_append (defA : Nat) :
    ∀ (l1 : List Nat) (l2 : List Nat) (acc : Nat × Nat × Nat) (f : Nat),
      l1.length + l2.length ≤ f → 38 ∉ l1 → 48 ∉ l1 →
      sgrLoop defA f (l1 ++ l2) acc =
        sgrLoop defA l2.length l2 (sgrLoop defA l1.length l1 acc) := by
  intro l1
  induction l1 with
  | nil =>
    intro l2 acc f hf _ _
    simp only [List.nil_append, List.length_nil]
    rw [show sgrLoop defA 0 [] acc = acc from rfl]
    exact sgrLoop_fuelCongr defA f l2.length l2 acc (by simpa using hf) le_rfl
  | cons p l1 ih =>
    intro l2 acc f hf h38 h48
    match f with
    | 0 => simp at hf
    | f + 1 =>
      obtain ⟨flags, fg, bg⟩ := acc
      have hp38 : p ≠ 38 := fun h => h38 (h ▸ List.mem_cons_self p l1)
      have hp48 : p ≠ 48 := fun h => h48 (h ▸ List.mem_cons_self p l1)
      have h38' : 38 ∉ l1 := fun h => h38 (List.mem_cons_of_mem p h)
      have h48' : 48 ∉ l1 := fun h => h48 (List.mem_cons_of_mem p h)
      have hf' : l1.length + l2.length ≤ f := by
        simp only [List.length_cons] at hf; omega
      simp only [List.length_cons, List.cons_append]
      rw [sgrLoop]
      conv_rhs => rw [sgrLoop]
      simp only [apply_ite (sgrLoop defA l2.length l2), if_neg hp38, if_neg hp48]
      repeat' refine if_ctx_congr Iff.rfl (fun _ => ?_) (fun _ => ?_)
      all_goals (apply ih <;> first | omega | assumption)

end TermEm

namespace TermEm

/-- The `curAttr` produced by the general path of `charAttributes`. -/
theorem charAttributes_curAttr (st : Term) (ps : List JsParam)
    (h : ps ≠ [JsParam.num 0]) :
    (charAttributes st ps).curAttr =
      ((sgrLoop st.defAttr ps.length (ps.map toNumD0)
          (st.curAttr >>> 18, (st.curAttr >>> 9) &&& 0x1ff,
           st.curAttr &&& 0x1ff)).1 <<< 18) |||
      ((sgrLoop st.defAttr ps.length (ps.map toNumD0)
          (st.curAttr >>> 18, (st.curAttr >>> 9) &&& 0x1ff,
           st.curAttr &&& 0x1ff)).2.1 <<< 9) |||
      (sgrLoop st.defAttr ps.length (ps.map toNumD0)
          (st.curAttr >>> 18, (st.curAttr >>> 9) &&& 0x1ff,
           st.curAttr &&& 0x1ff)).2.2 := by
  rcases he : sgrLoop st.defAttr ps.length (ps.map toNumD0)
      (st.curAttr >>> 18, (st.curAttr >>> 9) &&& 0x1ff, st.curAttr &&& 0x1ff)
    with ⟨a, b, c⟩
  rw [charAttributes, if_neg h, he]

/-- C6 counterexample: `charAttributes([38; 5] ++ [0])` from the default
attribute does not return to the default - the trailing `0` is consumed as
the color index of the unfinished `38;5` introducer, leaving `fg = 0`. -/
theorem C6_trailing_zero_consumed :
    (charAttributes initXterm ([JsParam.num 38, JsParam.num 5] ++ [JsParam.num 0])).curAttr
      ≠ initXterm.defAttr := by decide

/-- C6 amended: a trailing SGR parameter `0` resets `curAttr` to the
default attribute, provided the preceding parameters do not contain the
extended-color introducers 38/48 (whose argument consumption can swallow
the `0`).  The default attribute is the engine's constant. -/
theorem C6_trailing_zero_resets (st : Term) (ps : List JsParam)
    (hd : st.defAttr = (257 <<< 9) ||| (256 : Nat))
    (h38 : (38 : Nat) ∉ ps.map toNumD0) (h48 : (48 : Nat) ∉ ps.map toNumD0) :
    (charAttributes st (ps ++ [JsParam.num 0])).curAttr = st.defAttr := by
  by_cases hps : ps = []
  · subst hps
    simp only [List.nil_append]
    rw [charAttributes, if_pos rfl]
  · have hne : ps ++ [JsParam.num 0] ≠ [JsParam.num 0] := by
      intro h
      have hlen := congrArg List.length h
      simp only [List.length_append, List.length_singleton] at hlen
      exact hps (List.eq_nil_of_length_eq_zero (by omega))
    rw [charAttributes_curAttr st _ hne]
    have hmap : (ps ++ [JsParam.num 0]).map toNumD0 = ps.map toNumD0 ++ [0] := by
      simp [toNumD0]
    have hlen : (ps ++ [JsParam.num 0]).length = ps.length + 1 := by
      simp
    rw [hmap, hlen]
    rw [sgrLoop_append st.defAttr (ps.map toNumD0) [0] _ _
      (by simp) h38 h48]
    rcases sgrLoop st.defAttr (ps.map toNumD0).length (ps.map toNumD0)
        (st.curAttr >>> 18, (st.curAttr >>> 9) &&& 0x1ff, st.curAttr &&& 0x1ff)
      with ⟨a, b, c⟩
    rw [show ([0] : List Nat).length = 1 from rfl, sgrLoop]
    norm_num
    rw [show sgrLoop st.defAttr 0 [] (st.defAttr >>> 18,
        st.defAttr >>> 9 &&& 511, st.defAttr &&& 511) =
      (st.defAttr >>> 18, st.defAttr >>> 9 &&& 511, st.defAttr &&& 511) from rfl]
    rw [hd]
    decide

/-- Witness for `C6_trailing_zero_resets` with preceding parameters
`31; 1`. -/
theorem C6_trailing_zero_resets_witness :
    initXterm.defAttr = (257 <<< 9) ||| (256 : Nat) ∧
    (38 : Nat) ∉ [JsParam.num 31, JsParam.num 1].map toNumD0 ∧
    (48 : Nat) ∉ [JsParam.num 31, JsParam.num 1].map toNumD0 ∧
    (charAttributes initXterm
      ([JsParam.num 31, JsParam.num 1] ++ [JsParam.num 0])).curAttr =
      initXterm.defAttr :=
  ⟨by decide, by decide, by decide,
   C6_trailing_zero_resets initXterm [JsParam.num 31, JsParam.num 1]
     (by decide) (by decide) (by decide)⟩

end TermEm

namespace TermEm

/-- C7 counterexample: with `termName = "rxvt"` the engine answers DA1 with
nothing at all - `sendDeviceAttributes` tests `is('rxvt-unicode')`, which is
false for the name `rxvt`. -/
theorem C7_rxvt_emits_nothing :
    (feed (initTerm 80 24 "rxvt") "\x1b[c").sendQ = "" ∧
    (feed (initTerm 80 24 "rxvt") "\x1b[c").sendQ ≠ "\x1b[?1;2c" := by
  constructor <;> decide

/-- C7 amended: the DA1/DA2 responses of the claim hold with the term name
`rxvt-unicode` (matched by prefix) instead of `rxvt`; a plain `rxvt` name
matches no branch and sends nothing. -/
theorem C7_device_attributes (st : Term) :
    (st.pfx = "" →
      ((st.termName = "xterm" ∨ st.termName = "rxvt-unicode" ∨
          st.termName = "screen" →
        sendDeviceAttributes st [JsParam.num 0] = send st "\x1b[?1;2c") ∧
       (st.termName = "linux" →
        sendDeviceAttributes st [JsParam.num 0] = send st "\x1b[?6c") ∧
       (st.termName = "rxvt" →
        sendDeviceAttributes st [JsParam.num 0] = st))) ∧
    (st.pfx = ">" →
      ((st.termName = "xterm" →
        sendDeviceAttributes st [JsParam.num 0] = send st "\x1b[>0;276;0c") ∧
       (st.termName = "rxvt-unicode" →
        sendDeviceAttributes st [JsParam.num 0] = send st "\x1b[>85;95;0c") ∧
       (st.termName = "screen" →
        sendDeviceAttributes st [JsParam.num 0] = send st "\x1b[>83;40003;0c") ∧
       (st.termName = "rxvt" →
        sendDeviceAttributes st [JsParam.num 0] = st))) := by
  constructor
  · intro hp
    refine ⟨fun hn => ?_, fun hn => ?_, fun hn => ?_⟩
    · rcases hn with hn | hn | hn <;>
        (unfold sendDeviceAttributes isTerm; rw [hp, hn]) <;> rfl
    · unfold sendDeviceAttributes isTerm; rw [hp, hn]; rfl
    · unfold sendDeviceAttributes isTerm; rw [hp, hn]; rfl
  · intro hp
    refine ⟨fun hn => ?_, fun hn => ?_, fun hn => ?_, fun hn => ?_⟩ <;>
      (unfold sendDeviceAttributes isTerm; rw [hp, hn]) <;> rfl

/-- Witness for `C7_device_attributes` at an xterm DA1 request. -/
theorem C7_device_attributes_witness :
    initXterm.pfx = "" ∧
    (initXterm.termName = "xterm" ∨ initXterm.termName = "rxvt-unicode" ∨
      initXterm.termName = "screen") ∧
    sendDeviceAttributes initXterm [JsParam.num 0] = send initXterm "\x1b[?1;2c" :=
  ⟨by decide, Or.inl (by decide),
   ((C7_device_attributes initXterm).1 (by decide)).1 (Or.inl (by decide))⟩

/-- C8 counterexample: `CSI ? 6 n` produces no response at all - the CSI
dispatcher calls `deviceStatus` only when there is no prefix, so the
DEC-specific `?`-branch inside `deviceStatus` is unreachable. -/
theorem C8_dec_dsr_emits_nothing :
    (feed initXterm "\x1b[?6n").sendQ = "" ∧
    (feed initXterm "\x1b[?6n").sendQ ≠ "\x1b[?1;1R" := by
  constructor <;> decide

/-- C8 amended: DSR 5 answers `ESC [ 0 n`, DSR 6 answers the cursor
report, and on a fresh 80x24 engine `ESC [ 6 n` yields `ESC [ 1 ; 1 R`;
but `CSI ? 6 n` answers nothing (the `?`-prefixed call never reaches
`deviceStatus`). -/
theorem C8_device_status (st : Term) :
    (st.pfx = "" → deviceStatus st [JsParam.num 5] = send st "\x1b[0n") ∧
    (st.pfx = "" → deviceStatus st [JsParam.num 6] =
      send st ("\x1b[" ++ toString (st.y + 1) ++ ";" ++
        toString (st.x + 1) ++ "R")) ∧
    (feed initXterm "\x1b[6n").sendQ = "\x1b[1;1R" ∧
    (feed initXterm "\x1b[?6n").sendQ = "" := by
  refine ⟨fun hp => ?_, fun hp => ?_, by decide, by decide⟩ <;>
    simp [deviceStatus, hp, pN]

/-- Witness for `C8_device_status` on the fresh default engine. -/
theorem C8_device_status_witness :
    initXterm.pfx = "" ∧
    deviceStatus initXterm [JsParam.num 5] = send initXterm "\x1b[0n" :=
  ⟨by decide, (C8_device_status initXterm).1 (by decide)⟩

end TermEm

namespace TermEm

/-- Setting index `n` and taking `n+1` elements appends the new value to
the unchanged prefix. -/
theorem take_set_succ {α : Type} (l : List α) (n : Nat) (a : α)
    (h : n < l.length) :
    (l.set n a).take (n + 1) = l.take n ++ [a] := by
  induction l generalizing n with
  | nil => simp at h
  | cons b l ih =>
    cases n with
    | zero => simp
    | succ n =>
      simp only [List.set_cons_succ, List.take_succ_cons, List.cons_append]
      rw [ih n (by simpa using h)]

/-- The ECH fill loop overwrites exactly the cells from `j` to the right
margin (given enough fuel) and never grows the row. -/
theorem eraseCharsLoop_spec (cols : Int) (cell : Cell) :
    ∀ (fuel : Nat) (j : Int) (line : List Cell),
      0 ≤ j → 0 ≤ cols → line.length = cols.toNat →
      (cols - j).toNat ≤ fuel →
      eraseCharsLoop cols cell fuel j line =
        line.take j.toNat ++ List.replicate (cols - j).toNat cell := by
  intro fuel
  induction fuel with
  | zero =>
    intro j line hj hc hlen hf
    have h0 : (cols - j).toNat = 0 := Nat.le_zero.mp hf
    have hcj : cols ≤ j := by omega
    rw [show eraseCharsLoop cols cell 0 j line = line from rfl, h0]
    rw [List.replicate_zero, List.append_nil, List.take_of_length_le]
    omega
  | succ fuel ih =>
    intro j line hj hc hlen hf
    rw [eraseCharsLoop]
    by_cases hlt : j < cols
    · rw [if_pos hlt]
      have hjn : j.toNat < line.length := by omega
      have hset : jsSet line j cell cell = line.set j.toNat cell := by
        simp [jsSet, hjn, show ¬ j < 0 by omega]
      rw [hset, ih (j + 1) (line.set j.toNat cell) (by omega) hc
        (by simpa using hlen) (by omega)]
      have hj1 : (j + 1).toNat = j.toNat + 1 := by omega
      rw [hj1, take_set_succ line j.toNat cell hjn]
      have hrep : (cols - j).toNat = (cols - (j + 1)).toNat + 1 := by omega
      rw [hrep, List.replicate_succ, List.append_assoc]
      rfl
    · rw [if_neg hlt]
      have h0 : (cols - j).toNat = 0 := by omega
      rw [h0, List.replicate_zero, List.append_nil, List.take_of_length_le]
      omega

/-- C9: ECH (`CSI n X`) at `x = cols - k` with `0 < k < n` overwrites
exactly the `k` cells from column `x` to `cols - 1` with blank
erase-attribute cells, changes no other cell, and the row keeps length
`cols` - the erasure stops at the right margin instead of writing `n`
cells. -/
theorem C9_ech_stops_at_margin (st : Term) (row : List Cell) (n k : Nat)
    (hr : jsGet st.lines (st.y + st.ybase) = some row)
    (hlen : row.length = st.cols.toNat)
    (hx0 : 0 ≤ st.x)
    (hx : st.x = st.cols - (k : Int))
    (hk : 0 < k) (hkn : k < n) :
    eraseChars st [JsParam.num n] =
      putRow st (st.y + st.ybase)
        (row.take st.x.toNat ++ List.replicate k (eraseAttr st, ' ')) ∧
    (row.take st.x.toNat ++ List.replicate k (eraseAttr st, ' ')).length =
      st.cols.toNat := by
  have hr0 : ¬ st.y + st.ybase < 0 := by
    intro hneg
    rw [jsGet, if_pos hneg] at hr
    exact Option.noConfusion hr
  have hget : st.lines.get? (st.y + st.ybase).toNat = some row := by
    rw [jsGet, if_neg hr0] at hr
    exact hr
  have hlt : (st.y + st.ybase).toNat < st.lines.length :=
    List.get?_eq_some.mp hget |>.choose
  have hens : ensureRow st (st.y + st.ybase) = st := by
    rw [ensureRow, if_neg hr0, if_pos hlt]
  have hcols : 0 ≤ st.cols := by omega
  have hp : p0D1 [JsParam.num n] = n := by
    have : ¬ n < 1 := by omega
    simp [p0D1, pN, this]
  have hfuel : (st.cols - st.x).toNat ≤ n := by omega
  constructor
  · simp only [eraseChars, getRowE, hens, hr, Option.getD_some, hp]
    rw [eraseCharsLoop_spec st.cols (eraseAttr st, ' ') n st.x row hx0 hcols
      hlen hfuel]
    have hck : (st.cols - st.x).toNat = k := by omega
    rw [hck]
  · have htk : st.x.toNat ≤ row.length := by omega
    rw [List.length_append, List.length_take, List.length_replicate]
    omega

/-- Witness for `C9_ech_stops_at_margin`: a 5-column row, cursor at
`x = 3 = cols - 2`, `ECH 10` erases exactly 2 cells. -/
theorem C9_ech_stops_at_margin_witness :
    jsGet (feed (initTerm 5 3 "xterm") "ABCD\x1b[4G").lines
        ((feed (initTerm 5 3 "xterm") "ABCD\x1b[4G").y +
         (feed (initTerm 5 3 "xterm") "ABCD\x1b[4G").ybase) =
      some ((feed (initTerm 5 3 "xterm") "ABCD\x1b[4G").lines.getD 0 []) ∧
    eraseChars (feed (initTerm 5 3 "xterm") "ABCD\x1b[4G") [JsParam.num 10] =
      putRow (feed (initTerm 5 3 "xterm") "ABCD\x1b[4G")
        ((feed (initTerm 5 3 "xterm") "ABCD\x1b[4G").y +
         (feed (initTerm 5 3 "xterm") "ABCD\x1b[4G").ybase)
        (((feed (initTerm 5 3 "xterm") "ABCD\x1b[4G").lines.getD 0 []).take
            (feed (initTerm 5 3 "xterm") "ABCD\x1b[4G").x.toNat ++
          List.replicate 2
            (eraseAttr (feed (initTerm 5 3 "xterm") "ABCD\x1b[4G"), ' ')) :=
  ⟨by decide,
   (C9_ech_stops_at_margin (feed (initTerm 5 3 "xterm") "ABCD\x1b[4G")
      ((feed (initTerm 5 3 "xterm") "ABCD\x1b[4G").lines.getD 0 []) 10 2
      (by decide) (by decide) (by decide) (by decide) (by decide)
      (by decide)).1⟩

end TermEm

namespace TermEm

/-- Reading back the index just written by a JS array store. -/
theorem jsGet_jsSet_self {α : Type} (l : List α) (i : Int) (v f : α)
    (h : 0 ≤ i) : jsGet (jsSet l i v f) i = some v := by
  rw [jsSet, jsGet, if_neg (by omega), if_neg (by omega)]
  by_cases hlt : i.toNat < l.length
  · rw [if_pos hlt]
    rw [List.get?_eq_get (by simpa using hlt)]
    simp
  · rw [if_neg hlt]
    have h2 : (l ++ List.replicate (i.toNat - l.length) f).length ≤ i.toNat := by
      simp
      omega
    rw [List.get?_eq_getElem?, List.getElem?_append_right h2]
    have h3 : i.toNat - (l ++ List.replicate (i.toNat - l.length) f).length = 0 := by
      simp
      omega
    rw [h3]
    rfl

theorem scroll_x (st : Term) : (scroll st).x = st.x := by
  simp only [scroll]; split_ifs <;> rfl

theorem scroll_y (st : Term) : (scroll st).y = st.y := by
  simp only [scroll]; split_ifs <;> rfl

theorem scroll_curAttr (st : Term) : (scroll st).curAttr = st.curAttr := by
  simp only [scroll]; split_ifs <;> rfl

theorem scroll_wraparound (st : Term) :
    (scroll st).wraparoundMode = st.wraparoundMode := by
  simp only [scroll]; split_ifs <;> rfl

theorem scroll_ybase_nonneg (st : Term) (h : 0 ≤ st.ybase) :
    0 ≤ (scroll st).ybase := by
  simp only [scroll]; split_ifs <;> simp_all <;> omega

theorem ensureRow_x (st : Term) (r : Int) : (ensureRow st r).x = st.x := by
  simp only [ensureRow]; split_ifs <;> rfl

theorem ensureRow_y (st : Term) (r : Int) : (ensureRow st r).y = st.y := by
  simp only [ensureRow]; split_ifs <;> rfl

theorem ensureRow_ybase (st : Term) (r : Int) :
    (ensureRow st r).ybase = st.ybase := by
  simp only [ensureRow]; split_ifs <;> rfl

theorem ensureRow_curAttr (st : Term) (r : Int) :
    (ensureRow st r).curAttr = st.curAttr := by
  simp only [ensureRow]; split_ifs <;> rfl

theorem ensureRow_wraparound (st : Term) (r : Int) :
    (ensureRow st r).wraparoundMode = st.wraparoundMode := by
  simp only [ensureRow]; split_ifs <;> rfl

theorem printWrite_spec (s : Term) (c : Char) (hw : isWide c = false)
    (hpos : 0 ≤ s.y + s.ybase) :
    (printWrite s c).x = s.x + 1 ∧
    (printWrite s c).y = s.y ∧
    (printWrite s c).ybase = s.ybase ∧
    (printWrite s c).wraparoundMode = s.wraparoundMode ∧
    (0 ≤ s.x →
      jsGet ((jsGet (printWrite s c).lines (s.y + s.ybase)).getD []) s.x =
        some (s.curAttr, c)) := by
  simp only [printWrite, hw, Bool.false_eq_true, if_false, putRow,
    ensureRow_x, ensureRow_y, ensureRow_ybase, ensureRow_curAttr,
    ensureRow_wraparound]
  refine ⟨trivial, trivial, trivial, trivial, fun hx0 => ?_⟩
  rw [jsGet_jsSet_self _ _ _ _ hpos, Option.getD_some,
    jsGet_jsSet_self _ _ _ _ hx0]

/-- Margin-wrap case of `printChar`: with `x ≥ cols` the cursor moves to
column 0 of the next row (scrolling past `scrollBottom`) before the write. -/
theorem printChar_margin (st : Term) (c : Char)
    (hcs : st.charset = none) (hge : st.x ≥ st.cols) :
    printChar st c =
      if st.y + 1 > st.scrollBottom then
        printWrite (scroll { st with x := 0, y := st.y + 1 - 1 }) c
      else printWrite { st with x := 0, y := st.y + 1 } c := by
  have hmap : (match st.charset with
      | some CSTable.scld => (scldMap c).getD c
      | none => c) = c := by rw [hcs]
  rw [printChar, hmap, if_pos hge]
  exact apply_ite (fun s => printWrite s c) _ _ _

/-- C10: a printable character processed with the cursor on the margin
(`x = cols`) wraps to column 0 of the next row - scrolling when the cursor
sits on `scrollBottom` - and is written there, for EVERY value of
`wraparoundMode`: the flag is not consulted on the printable path (DEC
private mode ?7 only matters elsewhere), and it survives unchanged. -/
theorem C10_margin_wrap_ignores_flag (st : Term) (c : Char)
    (hpr : 32 ≤ charCode c)
    (hcs : st.charset = none)
    (hw : isWide c = false)
    (hx : st.x = st.cols)
    (hy : 0 ≤ st.y) (hyb : 0 ≤ st.ybase) :
    (procNormal st c).x = 1 ∧
    (procNormal st c).y =
      (if st.y + 1 > st.scrollBottom then st.y else st.y + 1) ∧
    (procNormal st c).wraparoundMode = st.wraparoundMode ∧
    jsGet ((jsGet (procNormal st c).lines
        ((procNormal st c).y + (procNormal st c).ybase)).getD []) 0 =
      some (st.curAttr, c) := by
  have h07 : c ≠ '\x07' := fun h => absurd hpr (by subst h; decide)
  have h0a : c ≠ '\x0a' := fun h => absurd hpr (by subst h; decide)
  have h0b : c ≠ '\x0b' := fun h => absurd hpr (by subst h; decide)
  have h0c : c ≠ '\x0c' := fun h => absurd hpr (by subst h; decide)
  have h0d : c ≠ '\x0d' := fun h => absurd hpr (by subst h; decide)
  have h08 : c ≠ '\x08' := fun h => absurd hpr (by subst h; decide)
  have h09 : c ≠ '\x09' := fun h => absurd hpr (by subst h; decide)
  have h0e : c ≠ '\x0e' := fun h => absurd hpr (by subst h; decide)
  have h0f : c ≠ '\x0f' := fun h => absurd hpr (by subst h; decide)
  have h1b : c ≠ '\x1b' := fun h => absurd hpr (by subst h; decide)
  have hpn : procNormal st c = printChar st c := by
    simp only [procNormal, h07, h0a, h0b, h0c, h0d, h08, h09, h0e, h0f, h1b,
      or_self, if_false, ge_iff_le, hpr, if_pos, if_true]
  rw [hpn, printChar_margin st c hcs (by omega)]
  by_cases hsb : st.y + 1 > st.scrollBottom
  · rw [if_pos hsb]
    set B : Term := { st with x := 0, y := st.y + 1 - 1 } with hB
    have hBy2 : B.y = st.y + 1 - 1 := rfl
    have hBx : B.x = 0 := rfl
    have hByb : B.ybase = st.ybase := rfl
    have hBcur : B.curAttr = st.curAttr := rfl
    have hBwrap : B.wraparoundMode = st.wraparoundMode := rfl
    have hyy : st.y + 1 - 1 = st.y := by omega
    have hpos : 0 ≤ (scroll B).y + (scroll B).ybase := by
      have h9 := scroll_ybase_nonneg B (by rw [hByb]; exact hyb)
      rw [scroll_y, hBy2]
      omega
    obtain ⟨w1, w2, w3, w4, w5⟩ := printWrite_spec (scroll B) c hw hpos
    refine ⟨?_, ?_, ?_, ?_⟩
    · rw [w1, scroll_x, hBx]; norm_num
    · rw [w2, scroll_y, hBy2, hyy, if_pos hsb]
    · rw [w4, scroll_wraparound, hBwrap]
    · have hx0 : (0 : Int) ≤ (scroll B).x := by
        rw [scroll_x, hBx]
      have h5 := w5 hx0
      rw [scroll_x, hBx, scroll_curAttr, hBcur] at h5
      rw [w2, w3]
      exact h5
  · rw [if_neg hsb]
    set B : Term := { st with x := 0, y := st.y + 1 } with hB
    have hBy2 : B.y = st.y + 1 := rfl
    have hBx : B.x = 0 := rfl
    have hByb : B.ybase = st.ybase := rfl
    have hBcur : B.curAttr = st.curAttr := rfl
    have hBwrap : B.wraparoundMode = st.wraparoundMode := rfl
    have hpos : 0 ≤ B.y + B.ybase := by rw [hBy2, hByb]; omega
    obtain ⟨w1, w2, w3, w4, w5⟩ := printWrite_spec B c hw hpos
    refine ⟨?_, ?_, ?_, ?_⟩
    · rw [w1, hBx]; norm_num
    · rw [w2, hBy2, if_neg hsb]
    · rw [w4, hBwrap]
    · have hx0 : (0 : Int) ≤ B.x := by rw [hBx]
      have h5 := w5 hx0
      rw [hBx, hBcur] at h5
      rw [w2, w3]
      exact h5

/-- Witness for `C10_margin_wrap_ignores_flag`: a 4-column terminal with
wraparound mode reset (`CSI ?7l`) and the cursor on the margin after four
printed characters. -/
theorem C10_margin_wrap_ignores_flag_witness :
    32 ≤ charCode 'E' ∧
    (feed (initTerm 4 4 "xterm") "\x1b[?7lABCD").charset = none ∧
    isWide 'E' = false ∧
    (feed (initTerm 4 4 "xterm") "\x1b[?7lABCD").x =
      (feed (initTerm 4 4 "xterm") "\x1b[?7lABCD").cols ∧
    ((procNormal (feed (initTerm 4 4 "xterm") "\x1b[?7lABCD") 'E').x = 1 ∧
     (procNormal (feed (initTerm 4 4 "xterm") "\x1b[?7lABCD") 'E').y =
       (if (feed (initTerm 4 4 "xterm") "\x1b[?7lABCD").y + 1 >
           (feed (initTerm 4 4 "xterm") "\x1b[?7lABCD").scrollBottom
        then (feed (initTerm 4 4 "xterm") "\x1b[?7lABCD").y
        else (feed (initTerm 4 4 "xterm") "\x1b[?7lABCD").y + 1) ∧
     (procNormal (feed (initTerm 4 4 "xterm") "\x1b[?7lABCD") 'E').wraparoundMode =
       (feed (initTerm 4 4 "xterm") "\x1b[?7lABCD").wraparoundMode ∧
     jsGet ((jsGet (procNormal (feed (initTerm 4 4 "xterm") "\x1b[?7lABCD") 'E').lines
         ((procNormal (feed (initTerm 4 4 "xterm") "\x1b[?7lABCD") 'E').y +
          (procNormal (feed (initTerm 4 4 "xterm") "\x1b[?7lABCD") 'E').ybase)).getD []) 0 =
       some ((feed (initTerm 4 4 "xterm") "\x1b[?7lABCD").curAttr, 'E')) :=
  ⟨by decide, by decide, by decide, by decide,
   C10_margin_wrap_ignores_flag (feed (initTerm 4 4 "xterm") "\x1b[?7lABCD") 'E'
     (by decide) (by decide) (by decide) (by decide) (by decide) (by decide)⟩

end TermEm

namespace TermEm

/-- `idxOfNul` is stable under appending when a NUL is already present. -/
theorem idxOfNul_append_some (xs ys : List Char) (j : Nat)
    (h : idxOfNul xs = some j) : idxOfNul (xs ++ ys) = some j := by
  induction xs generalizing j with
  | nil => simp [idxOfNul] at h
  | cons c rest ih =>
    rw [List.cons_append, idxOfNul]
    rw [idxOfNul] at h
    by_cases hc : c = '\x00'
    · rw [if_pos hc] at h ⊢
      exact h
    · rw [if_neg hc] at h ⊢
      cases hi : idxOfNul rest with
      | none => rw [hi] at h; simp at h
      | some j2 =>
        rw [hi] at h
        simp only [Option.map_some'] at h
        rw [ih j2 hi]
        simpa using h

theorem runLoop_nil (f : Nat) (st : Term) : runLoop f st [] = st := by
  cases f <;> rfl

theorem alignedRun_nil (f : Nat) (st : Term) : alignedRun f st [] = true := by
  cases f <;> rfl

theorem runLoop_crashed (f : Nat) (st : Term) (l : List Char)
    (h : st.crashed = true) : runLoop f st l = st := by
  cases f with
  | zero => rfl
  | succ f =>
    cases l with
    | nil => rfl
    | cons c rest => rw [runLoop, if_pos h]

/-- A parser step only looks past the current character through the
application-mode NUL scan; when that scan (or the terminator skip) is
settled inside `rest`, appending more input does not change the step. -/
theorem procCharFull_stable (st : Term) (c : Char) (rest b : List Char)
    (h : st.state = .appEnd → c = '\x00' ∨ (idxOfNul rest).isSome = true) :
    procCharFull st c (rest ++ b) = procCharFull st c rest := by
  cases hst : st.state
  case appEnd =>
    simp only [procCharFull, hst]
    rw [procAppEnd, procAppEnd]
    by_cases hc : c = '\x00'
    · rw [if_pos hc, if_pos hc]
    · rw [if_neg hc, if_neg hc]
      rcases h hst with h0 | h1
      · exact absurd h0 hc
      · obtain ⟨j, hj⟩ := Option.isSome_iff_exists.mp h1
        rw [hj, idxOfNul_append_some rest b j hj]
  all_goals simp only [procCharFull, hst]

/-- Any fuel at least the input length gives the same run. -/
theorem runLoop_congr : ∀ (f1 f2 : Nat) (st : Term) (l : List Char),
    l.length ≤ f1 → l.length ≤ f2 → runLoop f1 st l = runLoop f2 st l := by
  intro f1
  induction f1 with
  | zero =>
    intro f2 st l h1 _
    have : l = [] := List.eq_nil_of_length_eq_zero (Nat.le_zero.mp h1)
    subst this
    rw [runLoop_nil, runLoop_nil]
  | succ f1 ih =>
    intro f2 st l h1 h2
    cases l with
    | nil => rw [runLoop_nil, runLoop_nil]
    | cons c rest =>
      cases f2 with
      | zero => simp at h2
      | succ f2 =>
        rw [runLoop, runLoop]
        by_cases hcr : st.crashed = true
        · rw [if_pos hcr, if_pos hcr]
        · rw [if_neg hcr, if_neg hcr]
          rcases hpc : procCharFull st c rest with ⟨st2, k⟩
          simp only [List.length_cons] at h1 h2
          exact ih f2 st2 (rest.drop k)
            (by simp only [List.length_drop]; omega)
            (by simp only [List.length_drop]; omega)

/-- Any fuel at least the input length gives the same alignment verdict. -/
theorem alignedRun_congr : ∀ (f1 f2 : Nat) (st : Term) (l : List Char),
    l.length ≤ f1 → l.length ≤ f2 → alignedRun f1 st l = alignedRun f2 st l := by
  intro f1
  induction f1 with
  | zero =>
    intro f2 st l h1 _
    have : l = [] := List.eq_nil_of_length_eq_zero (Nat.le_zero.mp h1)
    subst this
    rw [alignedRun_nil, alignedRun_nil]
  | succ f1 ih =>
    intro f2 st l h1 h2
    cases l with
    | nil => rw [alignedRun_nil, alignedRun_nil]
    | cons c rest =>
      cases f2 with
      | zero => simp at h2
      | succ f2 =>
        rw [alignedRun, alignedRun]
        by_cases hcr : st.crashed = true
        · rw [if_pos hcr, if_pos hcr]
        · rw [if_neg hcr, if_neg hcr]
          rcases hpc : procCharFull st c rest with ⟨st2, k⟩
          simp only [hpc]
          by_cases hcond : k ≤ rest.length ∧
              (st.state = .appEnd → c = '\x00' ∨ (idxOfNul rest).isSome = true)
          · rw [if_pos hcond, if_pos hcond]
            simp only [List.length_cons] at h1 h2
            exact ih f2 st2 (rest.drop k)
              (by simp only [List.length_drop]; omega)
              (by simp only [List.length_drop]; omega)
          · rw [if_neg hcond, if_neg hcond]

/-- Chunk-splitting lemma for the character loop: when the first chunk's
run is boundary-aligned, running the concatenation equals running the two
chunks in sequence. -/
theorem runLoop_append : ∀ (fuel : Nat) (st : Term) (a b : List Char),
    a.length ≤ fuel →
    alignedRun a.length st a = true →
    runLoop (a.length + b.length) st (a ++ b) =
      runLoop b.length (runLoop a.length st a) b := by
  intro fuel
  induction fuel with
  | zero =>
    intro st a b ha _
    have : a = [] := List.eq_nil_of_length_eq_zero (Nat.le_zero.mp ha)
    subst this
    simp [runLoop_nil]
  | succ fuel ih =>
    intro st a b ha hal
    cases a with
    | nil => simp [runLoop_nil]
    | cons c rest =>
      by_cases hcr : st.crashed = true
      · rw [runLoop_crashed _ _ _ hcr, runLoop_crashed _ _ _ hcr,
          runLoop_crashed _ _ _ hcr]
      · rcases hpc : procCharFull st c rest with ⟨st2, k⟩
        simp only [List.length_cons] at ha hal ⊢
        rw [alignedRun, if_neg hcr] at hal
        simp only [hpc] at hal
        by_cases hcond : k ≤ rest.length ∧
            (st.state = .appEnd → c = '\x00' ∨ (idxOfNul rest).isSome = true)
        · rw [if_pos hcond] at hal
          obtain ⟨hk, happ⟩ := hcond
          have hstab : procCharFull st c (rest ++ b) = (st2, k) :=
            (procCharFull_stable st c rest b happ).trans hpc
          rw [List.cons_append]
          rw [show rest.length + 1 + b.length = rest.length + b.length + 1 from by omega]
          rw [runLoop, runLoop, if_neg hcr, if_neg hcr]
          simp only [hstab, hpc]
          rw [List.drop_append_of_le_length hk]
          have h1 : (rest.drop k).length ≤ fuel := by
            simp only [List.length_drop]; omega
          have h2 : alignedRun (rest.drop k).length st2 (rest.drop k) = true := by
            rw [alignedRun_congr (rest.drop k).length rest.length st2
              (rest.drop k) (le_refl _)
              (by simp only [List.length_drop]; omega)]
            exact hal
          have hmain := ih st2 (rest.drop k) b h1 h2
          rw [runLoop_congr (rest.length + b.length)
            ((rest.drop k).length + b.length) st2 (rest.drop k ++ b)
            (by simp only [List.length_append, List.length_drop]; omega)
            (by simp only [List.length_append, List.length_drop]; omega)]
          rw [hmain]
          rw [runLoop_congr rest.length (rest.drop k).length st2 (rest.drop k)
            (by simp only [List.length_drop]; omega)
            (by simp only [List.length_drop]; omega)]
        · rw [if_neg hcond] at hal
          simp at hal

/-- The start-of-chunk bookkeeping is a no-op on a state that is not
crashed and whose display offset already sits at the bottom. -/
theorem procStart_eq (m : Term) (h1 : m.crashed = false)
    (h2 : m.ybase = m.ydisp) : procStart m = m := by
  have hc : ({ m with crashed := false } : Term) = m := by rw [← h1]
  rw [procStart]
  simp only [hc]
  rw [if_neg (by simp [h2])]

/-- C5 counterexample: an input containing a CSI sequence (`CSI 31 m`)
whose OSC terminator `ESC \` falls on a chunk boundary.  The OSC handler
consumes the byte after a terminating ESC (`if (ch === \x1b) i++`), so
processing in one call skips the `\` while the split run processes it as a
printable, leaving the cursor at a different column. -/
theorem C5_split_not_equiv :
    (feed (feed initXterm "\x1b[31m\x1b]2;A\x1b") "\\").x ≠
      (feed initXterm "\x1b[31m\x1b]2;A\x1b\\").x := by decide

/-- C5 (amended): processing `a ++ b` in one `write` equals processing `a`
then `b` provided (i) the run over `a` is boundary-aligned - no handler
lookahead (two-byte ST skip, `ESC %`, `ESC /`, charset `/`, or the
application-mode NUL scan) reaches past the end of `a` -, (ii) the first
chunk does not crash, and (iii) the display offset sits at the bottom
after `a`, so the start-of-chunk snap of the second call is a no-op.  In
particular a split anywhere inside a CSI sequence is aligned: CSI parsing
is strictly byte-incremental. -/
theorem C5_aligned_split_equiv (st : Term) (a b : List Char)
    (hal : alignedRun a.length (procStart st) a = true)
    (hcr : (procData st a).crashed = false)
    (hyd : (procData st a).ybase = (procData st a).ydisp) :
    procData st (a ++ b) = procData (procData st a) b := by
  show runLoop (a ++ b).length (procStart st) (a ++ b) = _
  rw [List.length_append]
  rw [runLoop_append a.length (procStart st) a b (le_refl _) hal]
  show runLoop b.length (procData st a) b = _
  show _ = runLoop b.length (procStart (procData st a)) b
  rw [procStart_eq (procData st a) hcr hyd]

/-- Witness for `C5_aligned_split_equiv`: a CSI SGR sequence split in the
middle of its parameter (`ESC [ 3` / `1 m A`). -/
theorem C5_aligned_split_equiv_witness :
    alignedRun ("\x1b[3".toList).length (procStart initXterm) "\x1b[3".toList
      = true ∧
    (procData initXterm "\x1b[3".toList).crashed = false ∧
    (procData initXterm "\x1b[3".toList).ybase =
      (procData initXterm "\x1b[3".toList).ydisp ∧
    procData initXterm ("\x1b[3".toList ++ "1mA".toList) =
      procData (procData initXterm "\x1b[3".toList) "1mA".toList :=
  ⟨by decide, by decide, by decide,
   C5_aligned_split_equiv initXterm "\x1b[3".toList "1mA".toList
     (by decide) (by decide) (by decide)⟩

end TermEm
